import Mathlib

/-!
Verification of the Asteroids emulator core (`src/cpu.rs`, `src/memory.rs`,
`src/display.rs`) against its natural-language specification.

The Rust sources are embedded shallowly: every byte and word register is a
`Nat` carrying the value of the corresponding `u8`/`u16` (arithmetic that the
Rust code performs on machine integers is reduced modulo `2^8`/`2^16` exactly
where the machine width truncates), signed 16-bit quantities of the display
processor are embedded as `Int` reduced into the `i16` range, fallible
operations (`panic!` in the source) become `Except`, and the mutable `self`
receivers become explicit state passing.  Debug tracing, the SDL canvas, the
serial port and the ROM file loader are external collaborators and carry no
emulator state, so they are omitted; the draw primitives handed to the
rendering collaborator by `Dvg::line` are reified as a returned list.
-/

namespace AsteroidsEmu

/-- Memory-mapped input/output latches of the bus (struct `MappedIO` in
`memory.rs`, commented-out latches omitted as in the source). -/
structure MappedIo where
  clck3khz : Nat
  halt : Nat
  swhyper : Nat
  swfire : Nat
  sw1start : Nat
  swthrust : Nat
  swrotrght : Nat
  swrotleft : Nat
  godvg : Nat
  sndexp : Nat
  sndthump : Nat
  sndsaucr : Nat
  sndsfire : Nat
  sndselsau : Nat
  sndthrust : Nat
  sndfire : Nat
  sndbonus : Nat
  sndreset : Nat
  deriving Repr, DecidableEq

/-- The memory bus (struct `Memory` in `memory.rs`): four byte regions plus
the latches.  Regions are total maps from the region-local index to the byte
stored there. -/
structure Memory where
  game_ram : Nat → Nat
  dvg_ram : Nat → Nat
  dvg_rom : Nat → Nat
  game_rom : Nat → Nat
  mapped_io : MappedIo

/-- The dispatch of `Memory::get_byte` over the already-masked address, in
the source's match-arm order. -/
def Memory.get_byte_masked (m : Memory) (a : Nat) : Nat :=
  if a < 0x400 then m.game_ram a
  else if 0x4000 ≤ a ∧ a < 0x5000 then m.dvg_ram (a - 0x4000)
  else if 0x5000 ≤ a ∧ a < 0x5800 then m.dvg_rom (a - 0x5000)
  else if 0x6800 ≤ a then m.game_rom (a - 0x6800)
  else if a = 0x2001 then m.mapped_io.clck3khz
  else if a = 0x2002 then m.mapped_io.halt
  else if a = 0x2403 then m.mapped_io.sw1start
  else if a = 0x2004 then m.mapped_io.swfire
  else if a = 0x2405 then m.mapped_io.swthrust
  else if a = 0x2406 then m.mapped_io.swrotrght
  else if a = 0x2407 then m.mapped_io.swrotleft
  else if a = 0x2003 then m.mapped_io.swhyper
  else 0

/-- `Memory::get_byte`: mask the address to its low 15 bits, then
dispatch. -/
def Memory.get_byte (m : Memory) (addr : Nat) : Nat :=
  m.get_byte_masked (addr &&& 0x7FFF)

/-- The dispatch of `Memory::set_byte` over the already-masked address, in
the source's match-arm order; every unlisted address falls through to the
no-op arm. -/
def Memory.set_byte_masked (m : Memory) (a : Nat) (byte : Nat) : Memory :=
  if a < 0x400 then
    { m with game_ram := fun i => if i = a then byte else m.game_ram i }
  else if 0x4000 ≤ a ∧ a < 0x5000 then
    { m with dvg_ram := fun i => if i = a - 0x4000 then byte else m.dvg_ram i }
  else if a = 0x2001 then
    { m with mapped_io := { m.mapped_io with clck3khz := byte } }
  else if a = 0x3000 then
    { m with mapped_io := { m.mapped_io with godvg := byte } }
  else if a = 0x3600 then
    { m with mapped_io := { m.mapped_io with sndexp := byte } }
  else if a = 0x3A00 then
    { m with mapped_io := { m.mapped_io with sndthump := byte } }
  else if a = 0x3C00 then
    { m with mapped_io := { m.mapped_io with sndsaucr := byte } }
  else if a = 0x3C01 then
    { m with mapped_io := { m.mapped_io with sndsfire := byte } }
  else if a = 0x3C02 then
    { m with mapped_io := { m.mapped_io with sndselsau := byte } }
  else if a = 0x3C03 then
    { m with mapped_io := { m.mapped_io with sndthrust := byte } }
  else if a = 0x3C04 then
    { m with mapped_io := { m.mapped_io with sndfire := byte } }
  else if a = 0x3C05 then
    { m with mapped_io := { m.mapped_io with sndbonus := byte } }
  else m

/-- `Memory::set_byte`: mask the address to its low 15 bits, then
dispatch. -/
def Memory.set_byte (m : Memory) (addr : Nat) (byte : Nat) : Memory :=
  m.set_byte_masked (addr &&& 0x7FFF) byte

/-- Fault raised by the processor interpreter: `bad_opcode` in
`Cpu::fetch_instruction` aborts on undocumented opcodes and illegal
instruction/addressing-mode combinations, reporting the faulting address and
opcode byte. -/
inductive CpuFault
  | decodeFault (address opCode : Nat)
  deriving Repr, DecidableEq

/-- Enum `Instruction` in `cpu.rs`. -/
inductive Instruction
  | ADC | AND | ASL | BCC | BCS | BEQ | BIT | BMI | BNE | BPL | BRK | BVC | BVS
  | CLC | CLD | CLI | CLV | CMP | CPX | CPY | DEC | DEX | DEY | EOR | INC | INX
  | INY | JMP | JSR | LDA | LDX | LDY | LSR | NOP | ORA | PHA | PHP | PLA | PLP
  | ROL | ROR | RTI | RTS | SBC | SEC | SED | SEI | STA | STX | STY
  | TAX | TAY | TSX | TXA | TXS | TYA | INVALID
  deriving Repr, DecidableEq

/-- Enum `AddressingMode` in `cpu.rs`. -/
inductive AddressingMode
  | Immediate | ZeroPage | ZeroPageOffsetX | ZeroPageOffsetY
  | Absolute | AbsoluteOffsetX | AbsoluteOffsetY | Accumulator
  | OffsetXIndirect | IndirectOffsetY | IndirectLocation | AbsoluteLocation | NA
  deriving Repr, DecidableEq

/-- Struct `DecodedInstruction` in `cpu.rs`. -/
structure DecodedInstruction where
  address : Nat
  instruction : Instruction
  addressing_mode : AddressingMode
  operand : Option Nat
  deriving Repr, DecidableEq

/-- Struct `Cpu` in `cpu.rs` (the `debug_mode` tracing flag is dropped — it
only controls console printing). -/
structure Cpu where
  a : Nat
  x : Nat
  y : Nat
  pc : Nat
  previous_pc : Nat
  s : Nat
  p : Nat
  cycle : Nat
  deriving Repr, DecidableEq

/-- `Cpu::get_word`: little-endian word read. -/
def Cpu.get_word (addr : Nat) (memory : Memory) : Nat :=
  memory.get_byte addr ||| (memory.get_byte (addr + 1) <<< 8)

/-- `Cpu::page_cross_penalty`: 1 extra cycle when indexing moved the address
into another 256-byte page (16-bit address addition). -/
def Cpu.page_cross_penalty (addr offset : Nat) : Nat :=
  if addr &&& 0xFF00 = ((addr + offset) % 0x10000) &&& 0xFF00 then 0 else 1

/-- `Cpu::reset`. -/
def Cpu.reset (c : Cpu) (memory : Memory) : Cpu :=
  { c with a := 0, x := 0, y := 0, p := 0b100, s := 0xFD,
           pc := Cpu.get_word 0xFFFC memory, cycle := 6 }

/-- `Cpu::load_byte_from_pc`: fetch the byte at `pc` and advance `pc`
(16-bit increment). -/
def Cpu.load_byte_from_pc (c : Cpu) (memory : Memory) : Nat × Cpu :=
  (memory.get_byte c.pc, { c with pc := (c.pc + 1) % 0x10000 })

/-- `Cpu::load_word_from_pc`. -/
def Cpu.load_word_from_pc (c : Cpu) (memory : Memory) : Nat × Cpu :=
  let (lo, c1) := c.load_byte_from_pc memory
  let (hi, c2) := c1.load_byte_from_pc memory
  (lo ||| (hi <<< 8), c2)

/-- `Cpu::fetch_operand`: byte-sized modes fetch one byte, word-sized modes
a little-endian word, the rest have no operand. -/
def Cpu.fetch_operand (c : Cpu) (memory : Memory)
    (addressing_mode : AddressingMode) : Option Nat × Cpu :=
  match addressing_mode with
  | .Immediate | .ZeroPage | .ZeroPageOffsetX | .ZeroPageOffsetY
  | .OffsetXIndirect | .IndirectOffsetY =>
      let (b, c1) := c.load_byte_from_pc memory
      (some b, c1)
  | .Absolute | .AbsoluteOffsetX | .AbsoluteOffsetY
  | .IndirectLocation | .AbsoluteLocation =>
      let (w, c1) := c.load_word_from_pc memory
      (some w, c1)
  | _ => (none, c)

/-- `Cpu::fetch_instruction`: the opcode decoder.  The source's match arms
are reproduced in order: the fixed single-byte opcodes, the relative
branches (`xxx10000`), group A (low bits `01`), group B (low bits `10`),
group C (low bits `00`), with `bad_opcode` (a panic in the source) embedded
as a `CpuFault.decodeFault`. -/
def Cpu.fetch_instruction (c : Cpu) (memory : Memory) :
    Except CpuFault (DecodedInstruction × Cpu) :=
  let address := c.pc
  let (op_code, c) := c.load_byte_from_pc memory
  let bad : Except CpuFault (DecodedInstruction × Cpu) :=
    .error (.decodeFault address op_code)
  if op_code = 0x00 then .ok (⟨address, .BRK, .NA, none⟩, c)
  else if op_code = 0x20 then
    let (w, c) := c.load_word_from_pc memory
    .ok (⟨address, .JSR, .AbsoluteLocation, some w⟩, c)
  else if op_code = 0x40 then .ok (⟨address, .RTI, .NA, none⟩, c)
  else if op_code = 0x60 then .ok (⟨address, .RTS, .NA, none⟩, c)
  else if op_code = 0x08 then .ok (⟨address, .PHP, .NA, none⟩, c)
  else if op_code = 0x28 then .ok (⟨address, .PLP, .NA, none⟩, c)
  else if op_code = 0x48 then .ok (⟨address, .PHA, .NA, none⟩, c)
  else if op_code = 0x68 then .ok (⟨address, .PLA, .NA, none⟩, c)
  else if op_code = 0x88 then .ok (⟨address, .DEY, .NA, none⟩, c)
  else if op_code = 0xA8 then .ok (⟨address, .TAY, .NA, none⟩, c)
  else if op_code = 0xC8 then .ok (⟨address, .INY, .NA, none⟩, c)
  else if op_code = 0xE8 then .ok (⟨address, .INX, .NA, none⟩, c)
  else if op_code = 0x18 then .ok (⟨address, .CLC, .NA, none⟩, c)
  else if op_code = 0x38 then .ok (⟨address, .SEC, .NA, none⟩, c)
  else if op_code = 0x58 then .ok (⟨address, .CLI, .NA, none⟩, c)
  else if op_code = 0x78 then .ok (⟨address, .SEI, .NA, none⟩, c)
  else if op_code = 0x98 then .ok (⟨address, .TYA, .NA, none⟩, c)
  else if op_code = 0xB8 then .ok (⟨address, .CLV, .NA, none⟩, c)
  else if op_code = 0xD8 then .ok (⟨address, .CLD, .NA, none⟩, c)
  else if op_code = 0xF8 then .ok (⟨address, .SED, .NA, none⟩, c)
  else if op_code = 0x8A then .ok (⟨address, .TXA, .NA, none⟩, c)
  else if op_code = 0x9A then .ok (⟨address, .TXS, .NA, none⟩, c)
  else if op_code = 0xAA then .ok (⟨address, .TAX, .NA, none⟩, c)
  else if op_code = 0xBA then .ok (⟨address, .TSX, .NA, none⟩, c)
  else if op_code = 0xCA then .ok (⟨address, .DEX, .NA, none⟩, c)
  else if op_code = 0xEA then .ok (⟨address, .NOP, .NA, none⟩, c)
  else if op_code &&& 0b11111 = 0b10000 then
    let instruction : Instruction :=
      match (op_code &&& 0b11100000) >>> 5 with
      | 0b000 => .BPL
      | 0b001 => .BMI
      | 0b010 => .BVC
      | 0b011 => .BVS
      | 0b100 => .BCC
      | 0b101 => .BCS
      | 0b110 => .BNE
      | 0b111 => .BEQ
      | _ => .INVALID
    let (operand, c) := c.fetch_operand memory .Immediate
    .ok (⟨address, instruction, .Immediate, operand⟩, c)
  else if op_code &&& 0b11 = 0b01 then
    let addressing_mode : AddressingMode :=
      match (op_code &&& 0b11100) >>> 2 with
      | 0b000 => .OffsetXIndirect
      | 0b001 => .ZeroPage
      | 0b010 => .Immediate
      | 0b011 => .Absolute
      | 0b100 => .IndirectOffsetY
      | 0b101 => .ZeroPageOffsetX
      | 0b110 => .AbsoluteOffsetY
      | 0b111 => .AbsoluteOffsetX
      | _ => .NA
    let instruction : Instruction :=
      match (op_code &&& 0b11100000) >>> 5 with
      | 0b000 => .ORA
      | 0b001 => .AND
      | 0b010 => .EOR
      | 0b011 => .ADC
      | 0b100 => .STA
      | 0b101 => .LDA
      | 0b110 => .CMP
      | 0b111 => .SBC
      | _ => .INVALID
    if instruction = .STA ∧ addressing_mode = .Immediate then bad
    else
      let (operand, c) := c.fetch_operand memory addressing_mode
      .ok (⟨address, instruction, addressing_mode, operand⟩, c)
  else if op_code &&& 0b11 = 0b10 then
    let instruction : Instruction :=
      match (op_code &&& 0b11100000) >>> 5 with
      | 0b000 => .ASL
      | 0b001 => .ROL
      | 0b010 => .LSR
      | 0b011 => .ROR
      | 0b100 => .STX
      | 0b101 => .LDX
      | 0b110 => .DEC
      | 0b111 => .INC
      | _ => .INVALID
    let addressing_mode : AddressingMode :=
      match (op_code &&& 0b11100) >>> 2 with
      | 0b000 => .Immediate
      | 0b001 => .ZeroPage
      | 0b010 => .Accumulator
      | 0b011 => .Absolute
      | 0b101 =>
        (match instruction with
         | .LDX => .ZeroPageOffsetY
         | .STX => .ZeroPageOffsetY
         | _ => .ZeroPageOffsetX)
      | 0b111 =>
        (match instruction with
         | .LDX => .AbsoluteOffsetY
         | _ => .AbsoluteOffsetX)
      | _ => .NA
    let bad_combination : Bool :=
      match addressing_mode with
      | .NA => true
      | .Immediate =>
        (match instruction with
         | .LDX => false
         | _ => true)
      | .Accumulator =>
        (match instruction with
         | .STX => true
         | .LDX => true
         | .DEC => true
         | .INC => true
         | _ => false)
      | .AbsoluteOffsetX =>
        (match instruction with
         | .STX => true
         | _ => false)
      | _ => false
    if bad_combination then bad
    else
      let (operand, c) := c.fetch_operand memory addressing_mode
      .ok (⟨address, instruction, addressing_mode, operand⟩, c)
  else if op_code &&& 0b11 = 0b00 then
    let addressing_mode : AddressingMode :=
      match (op_code &&& 0b11100) >>> 2 with
      | 0b000 => .Immediate
      | 0b001 => .ZeroPage
      | 0b011 =>
        if op_code &&& 0b11100000 = 0b01100000 then .IndirectLocation
        else if op_code &&& 0b11100000 = 0b01000000 then .AbsoluteLocation
        else .Absolute
      | 0b101 => .ZeroPageOffsetX
      | 0b111 => .AbsoluteOffsetX
      | _ => .NA
    let instruction : Instruction :=
      match (op_code &&& 0b11100000) >>> 5 with
      | 0b001 => .BIT
      | 0b010 => .JMP
      | 0b011 => .JMP
      | 0b100 => .STY
      | 0b101 => .LDY
      | 0b110 => .CPY
      | 0b111 => .CPX
      | _ => .INVALID
    if instruction = .INVALID then bad
    else
      let bad_combination : Bool :=
        match addressing_mode with
        | .NA => true
        | .Immediate =>
          (match instruction with
           | .LDY => false
           | .CPY => false
           | .CPX => false
           | _ => true)
        | .ZeroPage =>
          (match instruction with
           | .JMP => true
           | _ => false)
        | .ZeroPageOffsetX =>
          (match instruction with
           | .STY => false
           | .LDY => false
           | _ => true)
        | .AbsoluteOffsetX =>
          (match instruction with
           | .LDY => false
           | _ => true)
        | _ => false
      if bad_combination then bad
      else
        let (operand, c) := c.fetch_operand memory addressing_mode
        .ok (⟨address, instruction, addressing_mode, operand⟩, c)
  else bad

/-- `Cpu::flag_set`. -/
def Cpu.flag_set (c : Cpu) (mask : Nat) : Bool :=
  c.p &&& mask == mask

/-- `Cpu::carry_set`. -/
def Cpu.carry_set (c : Cpu) : Bool := c.flag_set 0b1

/-- `Cpu::zero_set`. -/
def Cpu.zero_set (c : Cpu) : Bool := c.flag_set 0b10

/-- `Cpu::decimal_set`. -/
def Cpu.decimal_set (c : Cpu) : Bool := c.flag_set 0b1000

/-- `Cpu::overflow_set`. -/
def Cpu.overflow_set (c : Cpu) : Bool := c.flag_set 0b1000000

/-- `Cpu::negative_set`. -/
def Cpu.negative_set (c : Cpu) : Bool := c.flag_set 0b10000000

/-- `Cpu::update_flag` (`!mask` on a `u8` is `0xFF ^^^ mask`). -/
def Cpu.update_flag (c : Cpu) (set : Bool) (mask : Nat) : Cpu :=
  if set then { c with p := c.p ||| mask }
  else { c with p := c.p &&& (0xFF ^^^ mask) }

/-- `Cpu::update_carry`. -/
def Cpu.update_carry (c : Cpu) (set : Bool) : Cpu := c.update_flag set 0b1

/-- `Cpu::update_zero`. -/
def Cpu.update_zero (c : Cpu) (set : Bool) : Cpu := c.update_flag set 0b10

/-- `Cpu::update_irq_disable`. -/
def Cpu.update_irq_disable (c : Cpu) (set : Bool) : Cpu := c.update_flag set 0b100

/-- `Cpu::update_decimal`. -/
def Cpu.update_decimal (c : Cpu) (set : Bool) : Cpu := c.update_flag set 0b1000

/-- `Cpu::update_brk_command`. -/
def Cpu.update_brk_command (c : Cpu) (set : Bool) : Cpu := c.update_flag set 0b10000

/-- `Cpu::update_overflow`. -/
def Cpu.update_overflow (c : Cpu) (set : Bool) : Cpu := c.update_flag set 0b1000000

/-- `Cpu::update_negative_from_byte`. -/
def Cpu.update_negative_from_byte (c : Cpu) (byte : Nat) : Cpu :=
  c.update_flag (byte &&& 0x80 == 0x80) 0b10000000

/-- `Cpu::realise_operand`: compute the effective operand value for the
decoded addressing mode (16-bit index additions wrap). -/
def Cpu.realise_operand (c : Cpu) (di : DecodedInstruction) (memory : Memory) : Nat :=
  let op := di.operand.getD 0
  match di.addressing_mode with
  | .Immediate => op
  | .ZeroPage => memory.get_byte op
  | .ZeroPageOffsetX => memory.get_byte ((op + c.x) &&& 0xFF)
  | .ZeroPageOffsetY => memory.get_byte ((op + c.y) &&& 0xFF)
  | .Absolute => memory.get_byte op
  | .AbsoluteOffsetX => memory.get_byte ((op + c.x) % 0x10000)
  | .AbsoluteOffsetY => memory.get_byte ((op + c.y) % 0x10000)
  | .Accumulator => c.a
  | .OffsetXIndirect => memory.get_byte (Cpu.get_word ((op + c.x) &&& 0xFF) memory)
  | .IndirectOffsetY => memory.get_byte ((Cpu.get_word op memory + c.y) % 0x10000)
  | .IndirectLocation => Cpu.get_word op memory
  | .AbsoluteLocation => op
  | .NA => 0

/-- `Cpu::store_to_operand`: store a byte at the effective address of the
decoded addressing mode (accumulator mode writes the register instead). -/
def Cpu.store_to_operand (c : Cpu) (store : Nat) (di : DecodedInstruction)
    (memory : Memory) : Cpu × Memory :=
  let op := di.operand.getD 0
  match di.addressing_mode with
  | .ZeroPage => (c, memory.set_byte op store)
  | .ZeroPageOffsetX => (c, memory.set_byte ((op + c.x) &&& 0xFF) store)
  | .ZeroPageOffsetY => (c, memory.set_byte ((op + c.y) &&& 0xFF) store)
  | .Absolute => (c, memory.set_byte op store)
  | .AbsoluteOffsetX => (c, memory.set_byte ((op + c.x) % 0x10000) store)
  | .AbsoluteOffsetY => (c, memory.set_byte ((op + c.y) % 0x10000) store)
  | .Accumulator => ({ c with a := store }, memory)
  | .OffsetXIndirect =>
    (c, memory.set_byte (Cpu.get_word ((op + c.x) &&& 0xFF) memory) store)
  | .IndirectOffsetY =>
    (c, memory.set_byte ((Cpu.get_word op memory + c.y) % 0x10000) store)
  | _ => (c, memory)

/-- `Cpu::branch`: add the signed 8-bit displacement to `pc` (the source
subtracts `0x100 - op` for a negative displacement, adds `op` otherwise;
16-bit wraparound). -/
def Cpu.branch (c : Cpu) (op : Nat) : Cpu :=
  if op &&& 0x80 = 0x80 then
    { c with pc := (c.pc + 0x10000 - (0x100 - op)) % 0x10000 }
  else
    { c with pc := (c.pc + op) % 0x10000 }

/-- `Cpu::push_byte`: store at `0x100 + s`, then decrement `s` with explicit
wraparound. -/
def Cpu.push_byte (c : Cpu) (store : Nat) (memory : Memory) : Cpu × Memory :=
  let memory := memory.set_byte (0x100 + c.s) store
  if c.s = 0 then ({ c with s := 0xFF }, memory)
  else ({ c with s := c.s - 1 }, memory)

/-- `Cpu::pop_byte`: increment `s` with explicit wraparound, then read at
`0x100 + s`. -/
def Cpu.pop_byte (c : Cpu) (memory : Memory) : Nat × Cpu :=
  let c := if c.s = 0xFF then { c with s := 0 } else { c with s := c.s + 1 }
  (memory.get_byte (0x100 + c.s), c)

/-- `Cpu::push_word`: high byte first, then low byte. -/
def Cpu.push_word (c : Cpu) (store : Nat) (memory : Memory) : Cpu × Memory :=
  let (c, memory) := c.push_byte ((store >>> 8) &&& 0xFF) memory
  c.push_byte (store &&& 0xFF) memory

/-- `Cpu::pop_word`: low byte first, then high byte. -/
def Cpu.pop_word (c : Cpu) (memory : Memory) : Nat × Cpu :=
  let (lo, c) := c.pop_byte memory
  let (hi, c) := c.pop_byte memory
  (lo ||| (hi <<< 8), c)

/-- `Cpu::decrement_byte`. -/
def Cpu.decrement_byte (c : Cpu) (byte : Nat) : Nat × Cpu :=
  let result := if byte = 0 then 0xFF else byte - 1
  let c := c.update_zero (result == 0)
  let c := c.update_negative_from_byte result
  (result, c)

/-- `Cpu::increment_byte`. -/
def Cpu.increment_byte (c : Cpu) (byte : Nat) : Nat × Cpu :=
  let result := if byte = 0xFF then 0 else byte + 1
  let c := c.update_zero (result == 0)
  let c := c.update_negative_from_byte result
  (result, c)

/-- `Cpu::compare`. -/
def Cpu.compare (c : Cpu) (compare_to byte : Nat) : Cpu :=
  let c := c.update_carry (decide (byte ≤ compare_to))
  let c := c.update_zero (compare_to == byte)
  c.update_negative_from_byte ((compare_to + 0x100 - byte) &&& 0xFF)

/-- `Cpu::initiate_nmi`: the hardware-interrupt entry invoked by the
scheduler. -/
def Cpu.initiate_nmi (c : Cpu) (memory : Memory) : Cpu × Memory :=
  let pc := c.pc
  let p := c.p
  let (c, memory) := c.push_word pc memory
  let (c, memory) := c.push_byte p memory
  let c := { c with pc := Cpu.get_word 0xFFFA memory }
  ({ c with cycle := c.cycle + 7 }, memory)

/-- `Cpu::instruction_cycles`: the per-instruction cycle-cost table.  It is
evaluated on the post-execution state, so for branches `pc` is the branch
outcome and `previous_pc` the branch instruction's address. -/
def Cpu.instruction_cycles (c : Cpu) (di : DecodedInstruction) (memory : Memory) : Nat :=
  match di.instruction with
  | .ADC | .AND | .BIT | .CMP | .CPX | .CPY
  | .EOR | .LDA | .LDX | .LDY | .ORA | .SBC =>
    (match di.addressing_mode with
     | .Immediate => 2
     | .ZeroPage => 3
     | .ZeroPageOffsetX => 4
     | .Absolute => 4
     | .AbsoluteOffsetX =>
       4 + (match di.operand with
            | some a => Cpu.page_cross_penalty a c.x
            | none => 0)
     | .AbsoluteOffsetY =>
       4 + (match di.operand with
            | some a => Cpu.page_cross_penalty a c.y
            | none => 0)
     | .OffsetXIndirect => 6
     | .IndirectOffsetY =>
       5 + (match di.operand with
            | some a => Cpu.page_cross_penalty (Cpu.get_word a memory) c.y
            | none => 0)
     | _ => 0)
  | .ASL | .DEC | .INC | .LSR | .ROL | .ROR =>
    (match di.addressing_mode with
     | .Accumulator => 2
     | .ZeroPage => 5
     | .ZeroPageOffsetX => 6
     | .Absolute => 6
     | .AbsoluteOffsetX => 7
     | _ => 0)
  | .BCC | .BCS | .BEQ | .BMI | .BNE | .BPL | .BVC | .BVS =>
    2 + (if c.pc ≠ (c.previous_pc + 2) % 0x10000 then
           (if c.pc &&& 0xFF00 = ((c.previous_pc + 2) % 0x10000) &&& 0xFF00
            then 1 else 2)
         else 0)
  | .BRK => 7
  | .CLC | .CLD | .CLI | .CLV | .DEX | .DEY | .INX | .INY | .NOP
  | .SEC | .SED | .SEI | .TAX | .TAY | .TSX | .TXS | .TXA | .TYA => 2
  | .JMP =>
    (match di.addressing_mode with
     | .AbsoluteLocation => 3
     | .IndirectLocation => 5
     | _ => 0)
  | .JSR | .RTI | .RTS => 6
  | .PHA | .PHP => 3
  | .PLA | .PLP => 4
  | .STA | .STX | .STY =>
    (match di.addressing_mode with
     | .ZeroPage => 3
     | .ZeroPageOffsetX => 4
     | .Absolute => 4
     | .AbsoluteOffsetX => 5
     | .AbsoluteOffsetY => 5
     | .OffsetXIndirect => 6
     | .IndirectOffsetY => 6
     | _ => 0)
  | .INVALID => 0

/-- `Cpu::execute_instruction`: record `previous_pc`, fetch and decode,
resolve the operand, apply the instruction's effect, then add the
instruction's cycle cost (computed on the post-execution state, as in the
source where `instruction_cycles` runs after the `match`). -/
def Cpu.execute_instruction (c : Cpu) (memory : Memory) :
    Except CpuFault (Cpu × Memory) :=
  let c := { c with previous_pc := c.pc }
  match c.fetch_instruction memory with
  | .error f => .error f
  | .ok (di, c) =>
    let op := c.realise_operand di memory
    let (c, memory) :=
      match di.instruction with
      | .ADC =>
        let (sum, c) :=
          if c.decimal_set then
            let rhs := (c.a &&& 0xF) + (op &&& 0xF) + (if c.carry_set then 1 else 0)
            let carry := if rhs > 9 then 1 else 0
            let lhs := ((c.a &&& 0xF0) >>> 4) + ((op &&& 0xF0) >>> 4) + carry
            let c := c.update_carry (decide (lhs > 9))
            (((lhs % 10) <<< 4) ||| (rhs % 10), c)
          else
            let result := c.a + op + (if c.carry_set then 1 else 0)
            let c := c.update_carry (decide (result > 0xFF))
            (result &&& 0xFF, c)
        let c := c.update_negative_from_byte (sum &&& 0xFF)
        let c := c.update_zero (sum == 0)
        let overflow := (c.a < 128 ∧ sum > 127) ∨ (c.a > 127 ∧ sum < 128)
        let c := c.update_overflow (decide overflow)
        ({ c with a := sum &&& 0xFF }, memory)
      | .AND =>
        let result := c.a &&& (op &&& 0xFF)
        let c := c.update_zero (result == 0)
        let c := c.update_negative_from_byte result
        ({ c with a := result }, memory)
      | .ASL =>
        let result := op <<< 1
        let c := c.update_carry (result &&& 0x100 == 0x100)
        let c := c.update_negative_from_byte (result &&& 0xFF)
        let c := c.update_zero (result &&& 0xFF == 0)
        c.store_to_operand (result &&& 0xFF) di memory
      | .BCC => (if c.carry_set then c else c.branch op, memory)
      | .BCS => (if c.carry_set then c.branch op else c, memory)
      | .BEQ => (if c.zero_set then c.branch op else c, memory)
      | .BIT =>
        let result := c.a &&& (op &&& 0xFF)
        let c := c.update_zero (result == 0)
        let c := c.update_overflow (op &&& 0x40 == 0x40)
        let c := c.update_negative_from_byte (op &&& 0xFF)
        (c, memory)
      | .BMI => (if c.negative_set then c.branch op else c, memory)
      | .BNE => (if c.zero_set then c else c.branch op, memory)
      | .BPL => (if c.negative_set then c else c.branch op, memory)
      | .BRK =>
        let ret_addr := c.pc
        let flags := c.p
        let (c, memory) := c.push_word ret_addr memory
        let (c, memory) := c.push_byte flags memory
        let c := { c with pc := Cpu.get_word 0xFFFE memory }
        (c.update_brk_command true, memory)
      | .BVC => (if c.overflow_set then c else c.branch op, memory)
      | .BVS => (if c.overflow_set then c.branch op else c, memory)
      | .CLC => (c.update_carry false, memory)
      | .CLD => (c.update_decimal false, memory)
      | .CLI => (c.update_irq_disable false, memory)
      | .CLV => (c.update_overflow false, memory)
      | .CMP => (c.compare c.a (op &&& 0xFF), memory)
      | .CPX => (c.compare c.x (op &&& 0xFF), memory)
      | .CPY => (c.compare c.y (op &&& 0xFF), memory)
      | .DEC =>
        let (result, c) := c.decrement_byte (op &&& 0xFF)
        c.store_to_operand result di memory
      | .DEX =>
        let (r, c) := c.decrement_byte c.x
        ({ c with x := r }, memory)
      | .DEY =>
        let (r, c) := c.decrement_byte c.y
        ({ c with y := r }, memory)
      | .EOR =>
        let result := c.a ^^^ (op &&& 0xFF)
        let c := c.update_zero (result == 0)
        let c := c.update_negative_from_byte result
        ({ c with a := result }, memory)
      | .INC =>
        let (result, c) := c.increment_byte (op &&& 0xFF)
        c.store_to_operand result di memory
      | .INX =>
        let (r, c) := c.increment_byte c.x
        ({ c with x := r }, memory)
      | .INY =>
        let (r, c) := c.increment_byte c.y
        ({ c with y := r }, memory)
      | .JMP => ({ c with pc := op }, memory)
      | .JSR =>
        let ret_addr := (c.pc + 0x10000 - 1) % 0x10000
        let (c, memory) := c.push_word ret_addr memory
        ({ c with pc := op }, memory)
      | .LDA =>
        let c := c.update_zero (op == 0)
        let c := c.update_negative_from_byte (op &&& 0xFF)
        ({ c with a := op &&& 0xFF }, memory)
      | .LDX =>
        let c := c.update_zero (op == 0)
        let c := c.update_negative_from_byte (op &&& 0xFF)
        ({ c with x := op &&& 0xFF }, memory)
      | .LDY =>
        let c := c.update_zero (op == 0)
        let c := c.update_negative_from_byte (op &&& 0xFF)
        ({ c with y := op &&& 0xFF }, memory)
      | .LSR =>
        let c := c.update_carry (op &&& 0x1 == 0x1)
        let result := op >>> 1
        let c := c.update_zero (result == 0)
        let c := c.update_negative_from_byte (result &&& 0xFF)
        c.store_to_operand (result &&& 0xFF) di memory
      | .NOP => (c, memory)
      | .ORA =>
        let result := c.a ||| (op &&& 0xFF)
        let c := c.update_zero (result == 0)
        let c := c.update_negative_from_byte result
        ({ c with a := result }, memory)
      | .PHA => c.push_byte c.a memory
      | .PHP => c.push_byte c.p memory
      | .PLA =>
        let (result, c) := c.pop_byte memory
        let c := c.update_zero (result == 0)
        let c := c.update_negative_from_byte result
        ({ c with a := result }, memory)
      | .PLP =>
        let (result, c) := c.pop_byte memory
        ({ c with p := result }, memory)
      | .ROL =>
        let result := (op <<< 1) ||| (if c.carry_set then 1 else 0)
        let c := c.update_carry (result &&& 0x100 == 0x100)
        let c := c.update_zero (result &&& 0xFF == 0)
        let c := c.update_negative_from_byte (result &&& 0xFF)
        c.store_to_operand (result &&& 0xFF) di memory
      | .ROR =>
        let carry := op &&& 0x1 == 0x1
        let result := (op >>> 1) ||| (if c.carry_set then 0x80 else 0)
        let c := c.update_carry carry
        let c := c.update_zero (result == 0)
        let c := c.update_negative_from_byte (result &&& 0xFF)
        c.store_to_operand (result &&& 0xFF) di memory
      | .RTI =>
        let (pb, c) := c.pop_byte memory
        let c := { c with p := pb }
        let (pw, c) := c.pop_word memory
        ({ c with pc := pw }, memory)
      | .RTS =>
        let (pw, c) := c.pop_word memory
        ({ c with pc := (pw + 1) % 0x10000 }, memory)
      | .SBC =>
        let (sub, c) :=
          if c.decimal_set then
            let lhs_a := (c.a &&& 0xF0) >>> 4
            let lhs_o := ((op &&& 0xFF) &&& 0xF0) >>> 4
            let rhs_a := c.a &&& 0xF
            let rhs_o := (op &&& 0xFF) &&& 0xF
            let borrow1 := if c.carry_set then 0 else 1
            let borrow2 := if rhs_o + borrow1 ≤ rhs_a then 0 else 1
            let borrow3 := if lhs_o + borrow2 ≤ lhs_a then 0 else 1
            let rhs := (rhs_a + borrow2 * 10 + 0x200 - rhs_o - borrow1) % 0x100
            let lhs := (lhs_a + borrow3 * 10 + 0x200 - lhs_o - borrow2) % 0x100
            let c := c.update_carry (borrow3 == 0)
            (((lhs % 10) <<< 4) ||| (rhs % 10), c)
          else
            let sub_tot := op + (if c.carry_set then 0 else 1)
            let c := c.update_carry (decide (sub_tot ≤ c.a))
            let result := c.a + 0x100 - sub_tot
            (result &&& 0xFF, c)
        let c := c.update_negative_from_byte (sub &&& 0xFF)
        let c := c.update_zero (sub == 0)
        let overflow := (c.a < 128 ∧ (sub &&& 0xFF) > 127) ∨
          (c.a > 127 ∧ (sub &&& 0xFF) < 128)
        let c := c.update_overflow (decide overflow)
        ({ c with a := sub &&& 0xFF }, memory)
      | .SEC => (c.update_carry true, memory)
      | .SED => (c.update_decimal true, memory)
      | .SEI => (c.update_irq_disable true, memory)
      | .STA => c.store_to_operand c.a di memory
      | .STX => c.store_to_operand c.x di memory
      | .STY => c.store_to_operand c.y di memory
      | .TAX =>
        let result := c.a
        let c := c.update_zero (result == 0)
        let c := c.update_negative_from_byte result
        ({ c with x := result }, memory)
      | .TAY =>
        let result := c.a
        let c := c.update_zero (result == 0)
        let c := c.update_negative_from_byte result
        ({ c with y := result }, memory)
      | .TSX =>
        let result := c.s
        let c := c.update_zero (result == 0)
        let c := c.update_negative_from_byte result
        ({ c with x := result }, memory)
      | .TXA =>
        let result := c.x
        let c := c.update_zero (result == 0)
        let c := c.update_negative_from_byte result
        ({ c with a := result }, memory)
      | .TXS => ({ c with s := c.x }, memory)
      | .TYA =>
        let result := c.y
        let c := c.update_zero (result == 0)
        let c := c.update_negative_from_byte result
        ({ c with a := result }, memory)
      | .INVALID => (c, memory)
    let cycles := c.instruction_cycles di memory
    .ok ({ c with cycle := c.cycle + cycles }, memory)

/-- Fault raised by the vector-processor interpreter: the `panic!` calls in
the `JSRL`/`RTSL` arms of `Dvg::execute_instruction`. -/
inductive DvgFault
  | stackOverflow
  | stackUnderflow
  deriving Repr, DecidableEq

/-- Enum `Instruction` in `display.rs`. -/
inductive DvgInstruction
  | VCTR | LABS | HALT | JSRL | RTSL | JMPL | SVEC
  deriving Repr, DecidableEq

/-- Draw primitive handed to the rendering collaborator by `Dvg::line`: a
filled point when the new endpoint coincides with the cursor, otherwise a
segment from the new endpoint `(x, y)` to the previous cursor `(x0, y0)`
(the argument order of `canvas.line` in the source). -/
inductive Prim
  | point (x y : Int) (z : Nat)
  | segment (x y x0 y0 : Int) (z : Nat)
  deriving Repr, DecidableEq

/-- Struct `Dvg` in `display.rs`.  The `debug_mode`/`serialoutput` flags and
the `packet` buffer only drive console and serial-port side channels and are
dropped; `stack` is the 4-entry call stack indexed by `sp`. -/
structure Dvg where
  pc : Nat
  x : Int
  y : Int
  sf : Int
  stack : Nat → Nat
  sp : Nat

/-- Reduce an integer into the `i16` value range (two's-complement
wraparound of the source's 16-bit signed arithmetic). -/
def wrap16 (n : Int) : Int :=
  (n + 0x8000) % 0x10000 - 0x8000

/-- Reinterpret a `u16` value as an `i16` (the source's `as i16` cast). -/
def i16ofU16 (n : Nat) : Int :=
  if n < 0x8000 then (n : Int) else (n : Int) - 0x10000

/-- `Dvg::reset`. -/
def Dvg.reset (d : Dvg) : Dvg :=
  { d with pc := 1, x := 0, y := 0, sf := 0, stack := fun _ => 0, sp := 0 }

/-- `Dvg::load_from_pc`: read the little-endian word at
`pc * 2 + 0x4000` and advance the word-indexed `pc`. -/
def Dvg.load_from_pc (d : Dvg) (memory : Memory) : Nat × Dvg :=
  let addr := (d.pc * 2 + 0x4000) % 0x10000
  (memory.get_byte addr ||| (memory.get_byte (addr + 1) <<< 8),
   { d with pc := (d.pc + 1) % 0x10000 })

/-- `Dvg::instruction_from_word`: the opcode is the top 4 bits of the word;
everything below `0xA` is `VCTR`. -/
def Dvg.instruction_from_word (word : Nat) : DvgInstruction :=
  match (word &&& 0xF000) >>> 12 with
  | 0xA => .LABS
  | 0xB => .HALT
  | 0xC => .JSRL
  | 0xD => .RTSL
  | 0xE => .JMPL
  | 0xF => .SVEC
  | _ => .VCTR

/-- `Dvg::shift`: arithmetic scaling; a negative shift amount shifts left
instead of right.  The shift amount is reduced modulo 16 and left shifts
truncate to 16 bits, as `u16` shifts do in a release build (an amount of
16 or more would overflow the type). -/
def Dvg.shift (a : Nat) (s : Int) : Nat :=
  if 0 ≤ s then a >>> (s.toNat % 16)
  else (a <<< ((-s).toNat % 16)) % 0x10000

/-- `Dvg::line`: emit a draw primitive to the rendering collaborator when
the intensity `z` is nonzero (a point when the endpoint equals the cursor,
a segment otherwise), then move the cursor to `(x, y)` unconditionally. -/
def Dvg.line (d : Dvg) (x y : Int) (z : Nat) : Dvg × List Prim :=
  let prims :=
    if z ≠ 0 then
      (if x = d.x ∧ y = d.y then [Prim.point x y z]
       else [Prim.segment x y d.x d.y z])
    else []
  ({ d with x := x, y := y }, prims)

/-- `Dvg::execute_instruction`: fetch one word (two for `VCTR`/`LABS`),
decode the top nibble, execute.  `send_command` (the serial-port side
channel) carries no interpreter state and is omitted; the draw primitives
of `Dvg::line` are returned. -/
def Dvg.execute_instruction (d : Dvg) (memory : Memory) :
    Except DvgFault (Dvg × Memory × List Prim) :=
  let (op_word1, d) := d.load_from_pc memory
  let op := Dvg.instruction_from_word op_word1
  let (op_word2, d) :=
    match op with
    | .VCTR | .LABS => d.load_from_pc memory
    | _ => (0, d)
  match op with
  | .VCTR =>
    let ys : Bool := (0x400 &&& op_word1) != 0
    let delta_y := 0x3FF &&& op_word1
    let z := (0xF000 &&& op_word2) >>> 12
    let xs : Bool := (0x400 &&& op_word2) != 0
    let delta_x := 0x3FF &&& op_word2
    let shift_bits : Int := 9 - (((op_word1 &&& 0xF000) >>> 12 : Nat) : Int) + d.sf
    let x := wrap16 (d.x + i16ofU16 (Dvg.shift delta_x shift_bits) *
      (if xs then -1 else 1))
    let y := wrap16 (d.y + i16ofU16 (Dvg.shift delta_y shift_bits) *
      (if ys then -1 else 1))
    let (d, prims) := d.line x y z
    .ok (d, memory, prims)
  | .LABS =>
    let ys : Bool := (0x400 &&& op_word1) != 0
    let y := 0x3FF &&& op_word1
    let xs : Bool := (0x400 &&& op_word2) != 0
    let x := 0x3FF &&& op_word2
    let sf := (op_word2 &&& 0xF000) >>> 12
    let d := { d with sf := if sf &&& 0x8 = 0 then -(sf : Int) else 16 - (sf : Int) }
    let d := { d with y := if ys then 0 - i16ofU16 ((y ^^^ 0x3FF) + 1) else i16ofU16 y }
    let d := { d with x := if xs then 0 - i16ofU16 ((x ^^^ 0x3FF) + 1) else i16ofU16 x }
    .ok (d, memory, [])
  | .HALT =>
    .ok (d, { memory with mapped_io := { memory.mapped_io with halt := 0 } }, [])
  | .JSRL =>
    if d.sp > 3 then .error .stackOverflow
    else
      let addr := op_word1 &&& 0xFFF
      let d := { d with
        stack := fun i => if i = d.sp then d.pc else d.stack i
        sp := d.sp + 1
        pc := addr }
      .ok (d, memory, [])
  | .RTSL =>
    if d.sp = 0 then .error .stackUnderflow
    else
      let d := { d with sp := d.sp - 1 }
      .ok ({ d with pc := d.stack d.sp }, memory, [])
  | .JMPL =>
    .ok ({ d with pc := op_word1 &&& 0xFFF }, memory, [])
  | .SVEC =>
    let sf := ((op_word1 &&& 0x800) >>> 11) + ((op_word1 &&& 0x8) >>> 2)
    let ys : Bool := (op_word1 &&& 0x400) != 0
    let delta_y := op_word1 &&& 0x300
    let xs : Bool := (op_word1 &&& 0x4) != 0
    let delta_x := (op_word1 &&& 0x3) <<< 8
    let z := (op_word1 &&& 0xF0) >>> 4
    let shift_bits : Int := (7 - (sf : Int)) + d.sf
    let x := wrap16 (d.x + i16ofU16 (Dvg.shift delta_x shift_bits) *
      (if xs then -1 else 1))
    let y := wrap16 (d.y + i16ofU16 (Dvg.shift delta_y shift_bits) *
      (if ys then -1 else 1))
    let (d, prims) := d.line x y z
    .ok (d, memory, prims)

/-- The documented instruction/addressing-mode matrix, written from the
spec's decode description (§4.2): the single-byte register/flag operations
take no operand, branches carry a relative displacement fetched via the
immediate path, and each group instruction lists exactly its documented
mode set.  This is the spec-side reference that the decoder is compared
against. -/
def documentedMatrix : Instruction → AddressingMode → Bool
  | .ORA, m | .AND, m | .EOR, m | .ADC, m | .LDA, m | .CMP, m | .SBC, m =>
    (match m with
     | .Immediate | .ZeroPage | .ZeroPageOffsetX | .Absolute | .AbsoluteOffsetX
     | .AbsoluteOffsetY | .OffsetXIndirect | .IndirectOffsetY => true
     | _ => false)
  | .STA, m =>
    (match m with
     | .ZeroPage | .ZeroPageOffsetX | .Absolute | .AbsoluteOffsetX
     | .AbsoluteOffsetY | .OffsetXIndirect | .IndirectOffsetY => true
     | _ => false)
  | .ASL, m | .ROL, m | .LSR, m | .ROR, m =>
    (match m with
     | .Accumulator | .ZeroPage | .ZeroPageOffsetX | .Absolute
     | .AbsoluteOffsetX => true
     | _ => false)
  | .INC, m | .DEC, m =>
    (match m with
     | .ZeroPage | .ZeroPageOffsetX | .Absolute | .AbsoluteOffsetX => true
     | _ => false)
  | .LDX, m =>
    (match m with
     | .Immediate | .ZeroPage | .ZeroPageOffsetY | .Absolute
     | .AbsoluteOffsetY => true
     | _ => false)
  | .STX, m =>
    (match m with
     | .ZeroPage | .ZeroPageOffsetY | .Absolute => true
     | _ => false)
  | .LDY, m =>
    (match m with
     | .Immediate | .ZeroPage | .ZeroPageOffsetX | .Absolute
     | .AbsoluteOffsetX => true
     | _ => false)
  | .STY, m =>
    (match m with
     | .ZeroPage | .ZeroPageOffsetX | .Absolute => true
     | _ => false)
  | .CPX, m | .CPY, m =>
    (match m with
     | .Immediate | .ZeroPage | .Absolute => true
     | _ => false)
  | .BIT, m =>
    (match m with
     | .ZeroPage | .Absolute => true
     | _ => false)
  | .JMP, m =>
    (match m with
     | .AbsoluteLocation | .IndirectLocation => true
     | _ => false)
  | .JSR, m => m == .AbsoluteLocation
  | .BPL, m | .BMI, m | .BVC, m | .BVS, m
  | .BCC, m | .BCS, m | .BNE, m | .BEQ, m => m == .Immediate
  | .BRK, m | .RTI, m | .RTS, m | .PHP, m | .PLP, m | .PHA, m | .PLA, m
  | .DEY, m | .TAY, m | .INY, m | .INX, m | .CLC, m | .SEC, m | .CLI, m
  | .SEI, m | .TYA, m | .CLV, m | .CLD, m | .SED, m | .TXA, m | .TXS, m
  | .TAX, m | .TSX, m | .DEX, m | .NOP, m => m == .NA
  | .INVALID, _ => false

/-- An all-zero latch bank, for concrete test states. -/
def ioZero : MappedIo :=
  ⟨0, 0, 0, 0, 0, 0, 0, 0, 0, 0, 0, 0, 0, 0, 0, 0, 0, 0⟩

/-- An all-zero memory, for concrete test states. -/
def memZero : Memory :=
  { game_ram := fun _ => 0
    dvg_ram := fun _ => 0
    dvg_rom := fun _ => 0
    game_rom := fun _ => 0
    mapped_io := ioZero }

/-- Run the decoder on a memory whose every byte is the opcode `op`, from a
freshly zeroed processor (so the fetch at address 0 reads `op`).  The
decoded instruction/addressing-mode pair depends only on `op`. -/
def decodeProbe (op : Nat) : Except CpuFault (DecodedInstruction × Cpu) :=
  Cpu.fetch_instruction ⟨0, 0, 0, 0, 0, 0, 0, 0⟩
    { memZero with game_ram := fun _ => op }

/-- Decoding `op` either faults or yields a pair of the documented matrix. -/
def decodeLegalOn (op : Nat) : Bool :=
  match decodeProbe op with
  | .ok (di, _) => documentedMatrix di.instruction di.addressing_mode
  | .error _ => true

/-- Decoding `op` faults. -/
def isDecodeFault (op : Nat) : Bool :=
  match decodeProbe op with
  | .ok _ => false
  | .error _ => true

/-- Soundness of the decoder over all 256 opcode bytes. -/
def decodeTotalCheck : Bool :=
  (List.range 256).all decodeLegalOn

/-- Number of opcode bytes the decoder accepts. -/
def legalOpcodeCount : Nat :=
  ((List.range 256).filter (fun op => ! isDecodeFault op)).length

/-- Execute two processor instructions in sequence. -/
def stepTwice (c : Cpu) (m : Memory) : Except CpuFault (Cpu × Memory) :=
  match Cpu.execute_instruction c m with
  | .error f => .error f
  | .ok r => Cpu.execute_instruction r.1 r.2

/-- Whether a branch opcode's condition holds for status `p`: the three
opcode top bits select the flag and polarity (the eight `xxx10000`
branches). -/
def branchTaken (b p : Nat) : Bool :=
  match (b &&& 0b11100000) >>> 5 with
  | 0b000 => p &&& 0x80 != 0x80
  | 0b001 => p &&& 0x80 == 0x80
  | 0b010 => p &&& 0x40 != 0x40
  | 0b011 => p &&& 0x40 == 0x40
  | 0b100 => p &&& 0x1 != 0x1
  | 0b101 => p &&& 0x1 == 0x1
  | 0b110 => p &&& 0x2 != 0x2
  | 0b111 => p &&& 0x2 == 0x2
  | _ => false

/-- The branch selected by a branch opcode's three top bits (the decode
table of the `xxx10000` arm). -/
def branchInstruction (b : Nat) : Instruction :=
  match (b &&& 0b11100000) >>> 5 with
  | 0b000 => .BPL
  | 0b001 => .BMI
  | 0b010 => .BVC
  | 0b011 => .BVS
  | 0b100 => .BCC
  | 0b101 => .BCS
  | 0b110 => .BNE
  | 0b111 => .BEQ
  | _ => .INVALID

/-- Target of a taken branch at address `pc` with displacement byte `d`:
the instruction after the two-byte branch plus the signed displacement. -/
def branchTarget (pc d : Nat) : Nat :=
  if d &&& 0x80 = 0x80 then (pc + 2 + 0x10000 - (0x100 - d)) % 0x10000
  else (pc + 2 + d) % 0x10000

/-- Masked addresses served by one of `Memory::get_byte`'s arms. -/
def readMapped (a : Nat) : Prop :=
  a < 0x400 ∨ (0x4000 ≤ a ∧ a < 0x5000) ∨ (0x5000 ≤ a ∧ a < 0x5800) ∨
  0x6800 ≤ a ∨ a = 0x2001 ∨ a = 0x2002 ∨ a = 0x2403 ∨ a = 0x2004 ∨
  a = 0x2405 ∨ a = 0x2406 ∨ a = 0x2407 ∨ a = 0x2003

/-- Masked addresses served by one of `Memory::set_byte`'s writing arms. -/
def writeMapped (a : Nat) : Prop :=
  a < 0x400 ∨ (0x4000 ≤ a ∧ a < 0x5000) ∨ a = 0x2001 ∨ a = 0x3000 ∨
  a = 0x3600 ∨ a = 0x3A00 ∨ a = 0x3C00 ∨ a = 0x3C01 ∨ a = 0x3C02 ∨
  a = 0x3C03 ∨ a = 0x3C04 ∨ a = 0x3C05

instance (a : Nat) : Decidable (readMapped a) := by
  unfold readMapped; infer_instance

instance (a : Nat) : Decidable (writeMapped a) := by
  unfold writeMapped; infer_instance

/-- Execute two display-processor instructions in sequence (the draw
primitives of the first step are not collected). -/
def dvgStepTwice (d : Dvg) (m : Memory) : Except DvgFault (Dvg × Memory × List Prim) :=
  match d.execute_instruction m with
  | .error f => .error f
  | .ok r => r.1.execute_instruction r.2.1

/-- A display-processor state at word 1 with cursor (100, 200), for
concrete tests. -/
def dvgFix : Dvg :=
  { pc := 1, x := 100, y := 200, sf := 0, stack := fun _ => 0, sp := 0 }

/-- Display-list RAM holding word `w1` at word address 1 and word `w2` at
word address 2 (a two-word instruction at word 1). -/
def memDvg (w1 w2 : Nat) : Memory :=
  { memZero with dvg_ram := fun i =>
      if i = 2 then w1 &&& 0xFF else if i = 3 then w1 >>> 8
      else if i = 4 then w2 &&& 0xFF else if i = 5 then w2 >>> 8 else 0 }

/-- Display-list RAM holding a `JSRL 0x123` at word address 1 and a `RTSL`
at word address 0x123. -/
def memDvgJsr : Memory :=
  { memZero with dvg_ram := fun i =>
      if i = 2 then 0x23 else if i = 3 then 0xC1
      else if i = 0x246 then 0x00 else if i = 0x247 then 0xD0 else 0 }

/-- A processor state with the given program counter, stack pointer, status
and index-X, everything else zeroed — for concrete tests. -/
def cpuAt (pc s p x : Nat) : Cpu :=
  ⟨0, x, 0, pc, 0, s, p, 0⟩

/-- Zero memory except for a return-from-interrupt opcode (0x40) at RAM
address 0 — the target of an all-zero interrupt vector. -/
def memRtiAt0 : Memory :=
  { memZero with game_ram := fun i => if i = 0 then 0x40 else 0 }

/-- Zero memory except program ROM holding a return-from-interrupt opcode
at address 0x6800 and the software-interrupt vector 0x6800 at 0xFFFE. -/
def memBrkRom : Memory :=
  { memZero with game_rom := fun i =>
      if i = 0 then 0x40 else if i = 0x17FE then 0x00
      else if i = 0x17FF then 0x68 else 0 }

/-- Zero memory except two bytes of game RAM at 0x200: a conditional-branch
opcode `b` followed by its displacement byte `d`. -/
def memBr (b d : Nat) : Memory :=
  { memZero with game_ram := fun i =>
      if i = 0x200 then b else if i = 0x201 then d else 0 }

/-- Zero memory except three bytes of game RAM at 0x200: the
absolute-indexed-X load-accumulator opcode 0xBD followed by a little-endian
base address. -/
def memLda (lo hi : Nat) : Memory :=
  { memZero with game_ram := fun i =>
      if i = 0x200 then 0xBD else if i = 0x201 then lo
      else if i = 0x202 then hi else 0 }

/-! ## Arithmetic characterizations of the bit masks used by the source -/

theorem land_7fff (a : Nat) : a &&& 0x7FFF = a % 0x8000 := by
  have h := Nat.and_pow_two_sub_one_eq_mod a 15
  norm_num at h
  exact h

theorem land_ff (a : Nat) : a &&& 0xFF = a % 0x100 := by
  have h := Nat.and_pow_two_sub_one_eq_mod a 8
  norm_num at h
  exact h

theorem land_ff00 (a : Nat) : a &&& 0xFF00 = a % 0x10000 / 0x100 * 0x100 := by
  have h : (0xFF00 : Nat) = (2 ^ 8 - 1) <<< 8 := by
    rw [Nat.shiftLeft_eq]; norm_num
  have h2 : a % 0x10000 / 0x100 * 0x100 = ((a % 2 ^ 16) >>> 8) <<< 8 := by
    rw [Nat.shiftLeft_eq, Nat.shiftRight_eq_div_pow]; norm_num
  rw [h, h2]
  apply Nat.eq_of_testBit_eq
  intro i
  rw [Nat.testBit_land, Nat.testBit_shiftLeft, Nat.testBit_shiftLeft,
    Nat.testBit_two_pow_sub_one, Nat.testBit_shiftRight, Nat.testBit_mod_two_pow]
  by_cases hi : 8 ≤ i
  · have he : 8 + (i - 8) = i := by omega
    rw [he]
    by_cases hi16 : i < 16
    · have d1 : decide (i ≥ 8) = true := by simp [hi]
      have d2 : decide (i - 8 < 8) = true := by simp; omega
      have d3 : decide (i < 16) = true := by simp [hi16]
      rw [d1, d2, d3]
      simp [Bool.and_comm]
    · have d2 : decide (i - 8 < 8) = false := by simp; omega
      have d3 : decide (i < 16) = false := by simp [hi16]
      rw [d2, d3]
      simp
  · have d1 : decide (i ≥ 8) = false := by simp [hi]
    rw [d1]
    simp

theorem lor_8000_land_7fff (a : Nat) : (a ||| 0x8000) &&& 0x7FFF = a &&& 0x7FFF := by
  apply Nat.eq_of_testBit_eq
  intro i
  rw [Nat.testBit_land, Nat.testBit_land, Nat.testBit_lor]
  have h15 : (0x8000 : Nat) = 2 ^ 15 := by norm_num
  have h7 : (0x7FFF : Nat) = 2 ^ 15 - 1 := by norm_num
  rw [h15, h7, Nat.testBit_two_pow, Nat.testBit_two_pow_sub_one]
  by_cases hi : i < 15
  · have d1 : decide (15 = i) = false := by simp; omega
    rw [d1]; simp
  · have d2 : decide (i < 15) = false := by simp [hi]
    rw [d2]; simp

/-! ## Memory-bus lemmas -/

theorem mask_idem (a : Nat) : (a &&& 0x7FFF) &&& 0x7FFF = a &&& 0x7FFF := by
  rw [land_7fff, land_7fff]
  omega

/-- Reading after a write into working RAM: the written cell is observed,
other cells of RAM are untouched. -/
theorem get_byte_set_byte_ram (m : Memory) (a b v : Nat)
    (ha : a < 0x400) (hb : b < 0x400) :
    (m.set_byte a v).get_byte b = if b = a then v else m.get_byte b := by
  have ha' : a &&& 0x7FFF = a := by rw [land_7fff]; omega
  have hb' : b &&& 0x7FFF = b := by rw [land_7fff]; omega
  unfold Memory.set_byte Memory.get_byte
  rw [ha', hb']
  unfold Memory.set_byte_masked Memory.get_byte_masked
  rw [if_pos ha, if_pos hb, if_pos hb]

/-- A write into working RAM leaves every non-RAM read unchanged. -/
theorem get_byte_set_byte_ram_out (m : Memory) (a b v : Nat)
    (ha : a < 0x400) (hb : ¬ b &&& 0x7FFF < 0x400) :
    (m.set_byte a v).get_byte b = m.get_byte b := by
  have ha' : a &&& 0x7FFF = a := by rw [land_7fff]; omega
  unfold Memory.set_byte Memory.get_byte
  rw [ha']
  unfold Memory.set_byte_masked Memory.get_byte_masked
  rw [if_pos ha, if_neg hb, if_neg hb]

/-- C6: reads and writes on the bus depend only on the low 15 address bits,
and a byte written to a RAM address is observed when reading the address
with bit 15 set (intentional address mirroring). -/
theorem claim_C6_address_mirroring (m : Memory) (a b : Nat) :
    m.get_byte a = m.get_byte (a &&& 0x7FFF) ∧
    m.set_byte a b = m.set_byte (a &&& 0x7FFF) b ∧
    ((a &&& 0x7FFF < 0x400 ∨ (0x4000 ≤ a &&& 0x7FFF ∧ a &&& 0x7FFF < 0x5000)) →
      (m.set_byte a b).get_byte (a ||| 0x8000) = b) := by
  refine ⟨?_, ?_, ?_⟩
  · unfold Memory.get_byte
    rw [mask_idem]
  · unfold Memory.set_byte
    rw [mask_idem]
  · intro h
    unfold Memory.set_byte Memory.get_byte
    rw [lor_8000_land_7fff]
    unfold Memory.set_byte_masked Memory.get_byte_masked
    rcases h with h1 | h2
    · rw [if_pos h1, if_pos h1]
      simp
    · rw [if_neg (by omega), if_pos h2, if_neg (by omega), if_pos h2]
      simp

/-- C6 witness: a write to RAM address `0x123` read back at `0x8123`, and a
write to the mirrored display-list address `0xC321` read back at `0x4321`. -/
theorem claim_C6_witness :
    (memZero.set_byte 0x123 7).get_byte (0x123 ||| 0x8000) = 7 ∧
    (memZero.set_byte 0xC321 9).get_byte (0xC321 ||| 0x8000) = 9 :=
  ⟨(claim_C6_address_mirroring memZero 0x123 7).2.2 (Or.inl (by decide)),
   (claim_C6_address_mirroring memZero 0xC321 9).2.2 (Or.inr (by decide))⟩

/-- C7: the bus is total — reads of unmapped addresses return 0, and writes
whose masked address falls in a ROM range or in no write-mapped region
leave the memory state unchanged. -/
theorem claim_C7_total_bus (m : Memory) (addr b : Nat) :
    (¬ readMapped (addr &&& 0x7FFF) → m.get_byte addr = 0) ∧
    (((0x5000 ≤ addr &&& 0x7FFF ∧ addr &&& 0x7FFF < 0x5800) ∨
      (0x6800 ≤ addr &&& 0x7FFF ∧ addr &&& 0x7FFF ≤ 0x7FFF) ∨
      ¬ writeMapped (addr &&& 0x7FFF)) →
      m.set_byte addr b = m) := by
  constructor
  · intro h
    unfold readMapped at h
    push_neg at h
    obtain ⟨h1, h2, h3, h4, h5, h6, h7, h8, h9, h10, h11, h12⟩ := h
    unfold Memory.get_byte Memory.get_byte_masked
    rw [if_neg (by omega), if_neg (by omega), if_neg (by omega), if_neg (by omega),
      if_neg h5, if_neg h6, if_neg h7, if_neg h8, if_neg h9, if_neg h10,
      if_neg h11, if_neg h12]
  · intro hw
    have hnw : ¬ writeMapped (addr &&& 0x7FFF) := by
      rcases hw with h | h | h
      · intro hw'
        unfold writeMapped at hw'
        omega
      · intro hw'
        unfold writeMapped at hw'
        omega
      · exact h
    unfold writeMapped at hnw
    push_neg at hnw
    obtain ⟨h1, h2, h3, h4, h5, h6, h7, h8, h9, h10, h11, h12⟩ := hnw
    unfold Memory.set_byte Memory.set_byte_masked
    rw [if_neg (by omega), if_neg (by omega), if_neg h3, if_neg h4, if_neg h5,
      if_neg h6, if_neg h7, if_neg h8, if_neg h9, if_neg h10, if_neg h11,
      if_neg h12]

/-- C7 witness: a read from the unmapped address `0x2500` returns 0, and
writes to the two ROM ranges and to the unmapped address `0x2500` are
no-ops. -/
theorem claim_C7_witness :
    memZero.get_byte 0x2500 = 0 ∧
    memZero.set_byte 0x5123 9 = memZero ∧
    memZero.set_byte 0x6ABC 9 = memZero ∧
    memZero.set_byte 0x2500 9 = memZero :=
  ⟨(claim_C7_total_bus memZero 0x2500 0).1 (by decide),
   (claim_C7_total_bus memZero 0x5123 9).2 (Or.inl (by decide)),
   (claim_C7_total_bus memZero 0x6ABC 9).2 (Or.inr (Or.inl (by decide))),
   (claim_C7_total_bus memZero 0x2500 9).2 (Or.inr (Or.inr (by decide)))⟩

/-- C10: stores through the bus to the halt/frame-done latch address and to
every input-switch address are no-ops (they hit `set_byte`'s fall-through
arm), while the same addresses are readable and observe the corresponding
latch. -/
theorem claim_C10_latches_write_protected (m : Memory) (b : Nat) :
    m.set_byte 0x2002 b = m ∧ m.set_byte 0x2003 b = m ∧ m.set_byte 0x2004 b = m ∧
    m.set_byte 0x2403 b = m ∧ m.set_byte 0x2405 b = m ∧ m.set_byte 0x2406 b = m ∧
    m.set_byte 0x2407 b = m ∧
    m.get_byte 0x2002 = m.mapped_io.halt ∧
    m.get_byte 0x2003 = m.mapped_io.swhyper ∧
    m.get_byte 0x2004 = m.mapped_io.swfire ∧
    m.get_byte 0x2403 = m.mapped_io.sw1start ∧
    m.get_byte 0x2405 = m.mapped_io.swthrust ∧
    m.get_byte 0x2406 = m.mapped_io.swrotrght ∧
    m.get_byte 0x2407 = m.mapped_io.swrotleft :=
  ⟨rfl, rfl, rfl, rfl, rfl, rfl, rfl, rfl, rfl, rfl, rfl, rfl, rfl, rfl⟩

set_option maxRecDepth 10000 in
/-- C4: over all 256 opcode bytes the decoder either faults or yields an
instruction/addressing-mode pair of the documented matrix; store-accumulator
in immediate mode (opcode 0x89) faults, as do the group-B
increment/decrement-with-accumulator encodings (0xDA, 0xFA); exactly the
151 documented opcodes decode without fault (load-accumulator immediate,
0xA9, among them). -/
theorem claim_C4_decode_matrix :
    decodeTotalCheck = true ∧
    isDecodeFault 0x89 = true ∧
    isDecodeFault 0xDA = true ∧
    isDecodeFault 0xFA = true ∧
    isDecodeFault 0xA9 = false ∧
    legalOpcodeCount = 151 := by
  exact ⟨by decide, by decide, by decide, by decide, by decide, by decide⟩

/-! ## Vector-processor call-stack lemmas -/

theorem dvg_exec_vctr (d : Dvg) (m : Memory)
    (hop : Dvg.instruction_from_word (d.load_from_pc m).1 = .VCTR) :
    d.execute_instruction m =
      (let w1 := (d.load_from_pc m).1
       let w2 := (({ d with pc := (d.pc + 1) % 0x10000 } : Dvg).load_from_pc m).1
       let z := (0xF000 &&& w2) >>> 12
       let sb : Int := 9 - (((w1 &&& 0xF000) >>> 12 : Nat) : Int) + d.sf
       let x := wrap16 (d.x + i16ofU16 (Dvg.shift (0x3FF &&& w2) sb) *
         (if (0x400 &&& w2) != 0 then -1 else 1))
       let y := wrap16 (d.y + i16ofU16 (Dvg.shift (0x3FF &&& w1) sb) *
         (if (0x400 &&& w1) != 0 then -1 else 1))
       .ok ({ d with pc := ((d.pc + 1) % 0x10000 + 1) % 0x10000, x := x, y := y },
         m,
         if z ≠ 0 then
           (if x = d.x ∧ y = d.y then [Prim.point x y z]
            else [Prim.segment x y d.x d.y z])
         else [])) := by
  have e1 : d.load_from_pc m =
      ((d.load_from_pc m).1, { d with pc := (d.pc + 1) % 0x10000 }) := rfl
  have e2 : ({ d with pc := (d.pc + 1) % 0x10000 } : Dvg).load_from_pc m =
      ((({ d with pc := (d.pc + 1) % 0x10000 } : Dvg).load_from_pc m).1,
       { d with pc := ((d.pc + 1) % 0x10000 + 1) % 0x10000 }) := rfl
  dsimp only [Dvg.load_from_pc] at hop
  unfold Dvg.execute_instruction
  rw [e1]
  dsimp only [Dvg.load_from_pc]
  rw [hop]
  rfl

theorem dvg_exec_labs (d : Dvg) (m : Memory)
    (hop : Dvg.instruction_from_word (d.load_from_pc m).1 = .LABS) :
    d.execute_instruction m =
      (let w1 := (d.load_from_pc m).1
       let w2 := (({ d with pc := (d.pc + 1) % 0x10000 } : Dvg).load_from_pc m).1
       .ok ({ d with
               pc := ((d.pc + 1) % 0x10000 + 1) % 0x10000
               x := if (0x400 &&& w2) != 0 then
                   0 - i16ofU16 (((0x3FF &&& w2) ^^^ 0x3FF) + 1)
                 else i16ofU16 (0x3FF &&& w2)
               y := if (0x400 &&& w1) != 0 then
                   0 - i16ofU16 (((0x3FF &&& w1) ^^^ 0x3FF) + 1)
                 else i16ofU16 (0x3FF &&& w1)
               sf := if ((w2 &&& 0xF000) >>> 12) &&& 0x8 = 0 then
                   -(((w2 &&& 0xF000) >>> 12 : Nat) : Int)
                 else 16 - (((w2 &&& 0xF000) >>> 12 : Nat) : Int) },
         m, [])) := by
  have e1 : d.load_from_pc m =
      ((d.load_from_pc m).1, { d with pc := (d.pc + 1) % 0x10000 }) := rfl
  dsimp only [Dvg.load_from_pc] at hop
  unfold Dvg.execute_instruction
  rw [e1]
  dsimp only [Dvg.load_from_pc]
  rw [hop]
  rfl

theorem dvg_exec_halt (d : Dvg) (m : Memory)
    (hop : Dvg.instruction_from_word (d.load_from_pc m).1 = .HALT) :
    d.execute_instruction m =
      .ok ({ d with pc := (d.pc + 1) % 0x10000 },
        { m with mapped_io := { m.mapped_io with halt := 0 } }, []) := by
  have e1 : d.load_from_pc m =
      ((d.load_from_pc m).1, { d with pc := (d.pc + 1) % 0x10000 }) := rfl
  dsimp only [Dvg.load_from_pc] at hop
  unfold Dvg.execute_instruction
  rw [e1]
  dsimp only [Dvg.load_from_pc]
  rw [hop]

theorem dvg_exec_jsrl (d : Dvg) (m : Memory)
    (hop : Dvg.instruction_from_word (d.load_from_pc m).1 = .JSRL) :
    d.execute_instruction m =
      (if d.sp > 3 then .error .stackOverflow
       else .ok ({ d with
                     pc := (d.load_from_pc m).1 &&& 0xFFF
                     stack := fun i => if i = d.sp then (d.pc + 1) % 0x10000
                       else d.stack i
                     sp := d.sp + 1 }, m, [])) := by
  have e1 : d.load_from_pc m =
      ((d.load_from_pc m).1, { d with pc := (d.pc + 1) % 0x10000 }) := rfl
  dsimp only [Dvg.load_from_pc] at hop
  unfold Dvg.execute_instruction
  rw [e1]
  dsimp only [Dvg.load_from_pc]
  rw [hop]

theorem dvg_exec_rtsl (d : Dvg) (m : Memory)
    (hop : Dvg.instruction_from_word (d.load_from_pc m).1 = .RTSL) :
    d.execute_instruction m =
      (if d.sp = 0 then .error .stackUnderflow
       else .ok ({ d with pc := d.stack (d.sp - 1), sp := d.sp - 1 }, m, [])) := by
  have e1 : d.load_from_pc m =
      ((d.load_from_pc m).1, { d with pc := (d.pc + 1) % 0x10000 }) := rfl
  dsimp only [Dvg.load_from_pc] at hop
  unfold Dvg.execute_instruction
  rw [e1]
  dsimp only [Dvg.load_from_pc]
  rw [hop]

theorem dvg_exec_jmpl (d : Dvg) (m : Memory)
    (hop : Dvg.instruction_from_word (d.load_from_pc m).1 = .JMPL) :
    d.execute_instruction m =
      .ok ({ d with pc := (d.load_from_pc m).1 &&& 0xFFF }, m, []) := by
  have e1 : d.load_from_pc m =
      ((d.load_from_pc m).1, { d with pc := (d.pc + 1) % 0x10000 }) := rfl
  dsimp only [Dvg.load_from_pc] at hop
  unfold Dvg.execute_instruction
  rw [e1]
  dsimp only [Dvg.load_from_pc]
  rw [hop]

theorem dvg_exec_svec (d : Dvg) (m : Memory)
    (hop : Dvg.instruction_from_word (d.load_from_pc m).1 = .SVEC) :
    d.execute_instruction m =
      (let w1 := (d.load_from_pc m).1
       let sf2 := ((w1 &&& 0x800) >>> 11) + ((w1 &&& 0x8) >>> 2)
       let z := (w1 &&& 0xF0) >>> 4
       let sb : Int := (7 - (sf2 : Int)) + d.sf
       let x := wrap16 (d.x + i16ofU16 (Dvg.shift ((w1 &&& 0x3) <<< 8) sb) *
         (if (w1 &&& 0x4) != 0 then -1 else 1))
       let y := wrap16 (d.y + i16ofU16 (Dvg.shift (w1 &&& 0x300) sb) *
         (if (w1 &&& 0x400) != 0 then -1 else 1))
       .ok ({ d with pc := (d.pc + 1) % 0x10000, x := x, y := y }, m,
         if z ≠ 0 then
           (if x = d.x ∧ y = d.y then [Prim.point x y z]
            else [Prim.segment x y d.x d.y z])
         else [])) := by
  have e1 : d.load_from_pc m =
      ((d.load_from_pc m).1, { d with pc := (d.pc + 1) % 0x10000 }) := rfl
  dsimp only [Dvg.load_from_pc] at hop
  unfold Dvg.execute_instruction
  rw [e1]
  dsimp only [Dvg.load_from_pc]
  rw [hop]
  rfl

/-- Invariant: a successful vector-processor step keeps the stack pointer
in the range 0–4. -/
theorem dvg_sp_le_four (d : Dvg) (m : Memory) (d' : Dvg) (m' : Memory)
    (prims : List Prim) (hsp : d.sp ≤ 4)
    (hok : d.execute_instruction m = .ok (d', m', prims)) :
    d'.sp ≤ 4 := by
  rcases hop : Dvg.instruction_from_word (d.load_from_pc m).1 with
    _ | _ | _ | _ | _ | _ | _
  · rw [dvg_exec_vctr d m hop] at hok
    simp only [Except.ok.injEq, Prod.mk.injEq] at hok
    obtain ⟨h1, -⟩ := hok
    rw [← h1]
    exact hsp
  · rw [dvg_exec_labs d m hop] at hok
    simp only [Except.ok.injEq, Prod.mk.injEq] at hok
    obtain ⟨h1, -⟩ := hok
    rw [← h1]
    exact hsp
  · rw [dvg_exec_halt d m hop] at hok
    simp only [Except.ok.injEq, Prod.mk.injEq] at hok
    obtain ⟨h1, -⟩ := hok
    rw [← h1]
    exact hsp
  · rw [dvg_exec_jsrl d m hop] at hok
    by_cases h : d.sp > 3
    · rw [if_pos h] at hok
      exact absurd hok (by simp)
    · rw [if_neg h] at hok
      simp only [Except.ok.injEq, Prod.mk.injEq] at hok
      obtain ⟨h1, -⟩ := hok
      rw [← h1]
      show d.sp + 1 ≤ 4
      omega
  · rw [dvg_exec_rtsl d m hop] at hok
    by_cases h : d.sp = 0
    · rw [if_pos h] at hok
      exact absurd hok (by simp)
    · rw [if_neg h] at hok
      simp only [Except.ok.injEq, Prod.mk.injEq] at hok
      obtain ⟨h1, -⟩ := hok
      rw [← h1]
      show d.sp - 1 ≤ 4
      omega
  · rw [dvg_exec_jmpl d m hop] at hok
    simp only [Except.ok.injEq, Prod.mk.injEq] at hok
    obtain ⟨h1, -⟩ := hok
    rw [← h1]
    exact hsp
  · rw [dvg_exec_svec d m hop] at hok
    simp only [Except.ok.injEq, Prod.mk.injEq] at hok
    obtain ⟨h1, -⟩ := hok
    rw [← h1]
    exact hsp

/-- C8: a call (`JSRL`, top nibble 0xC) faults exactly when the stack
pointer exceeds 3 and otherwise pushes the word address of the following
instruction and jumps to the low 12 bits; a return (`RTSL`, top nibble 0xD)
faults exactly when the stack is empty and otherwise pops into the program
counter; a successful step keeps the stack pointer within 0–4; and a call
followed by a matching return restores the program counter to the
instruction after the call. -/
theorem claim_C8_call_stack (d : Dvg) (m : Memory) (w : Nat)
    (hw : (d.load_from_pc m).1 = w) :
    ((w &&& 0xF000) >>> 12 = 0xC →
      (d.sp > 3 → d.execute_instruction m = .error .stackOverflow) ∧
      (¬ d.sp > 3 → d.execute_instruction m =
        .ok ({ d with
                 pc := w &&& 0xFFF
                 stack := fun i => if i = d.sp then (d.pc + 1) % 0x10000
                   else d.stack i
                 sp := d.sp + 1 }, m, []))) ∧
    ((w &&& 0xF000) >>> 12 = 0xD →
      (d.sp = 0 → d.execute_instruction m = .error .stackUnderflow) ∧
      (d.sp ≠ 0 → d.execute_instruction m =
        .ok ({ d with pc := d.stack (d.sp - 1), sp := d.sp - 1 }, m, []))) ∧
    (∀ d' m' prims, d.sp ≤ 4 → d.execute_instruction m = .ok (d', m', prims) →
      d'.sp ≤ 4) ∧
    ((w &&& 0xF000) >>> 12 = 0xC → ¬ d.sp > 3 →
      ∀ w2, (({ d with
                  pc := w &&& 0xFFF
                  stack := fun i => if i = d.sp then (d.pc + 1) % 0x10000
                    else d.stack i
                  sp := d.sp + 1 } : Dvg).load_from_pc m).1 = w2 →
        (w2 &&& 0xF000) >>> 12 = 0xD →
        dvgStepTwice d m = .ok ({ d with
          pc := (d.pc + 1) % 0x10000
          stack := fun i => if i = d.sp then (d.pc + 1) % 0x10000
            else d.stack i }, m, [])) := by
  refine ⟨?_, ?_, ?_, ?_⟩
  · intro hC
    have hop : Dvg.instruction_from_word (d.load_from_pc m).1 = .JSRL := by
      unfold Dvg.instruction_from_word
      rw [hw, hC]
    refine ⟨fun hgt => ?_, fun hle => ?_⟩
    · rw [dvg_exec_jsrl d m hop, if_pos hgt]
    · rw [dvg_exec_jsrl d m hop, if_neg hle, hw]
  · intro hD
    have hop : Dvg.instruction_from_word (d.load_from_pc m).1 = .RTSL := by
      unfold Dvg.instruction_from_word
      rw [hw, hD]
    refine ⟨fun h0 => ?_, fun hne => ?_⟩
    · rw [dvg_exec_rtsl d m hop, if_pos h0]
    · rw [dvg_exec_rtsl d m hop, if_neg hne]
  · exact fun d' m' prims hsp hok => dvg_sp_le_four d m d' m' prims hsp hok
  · intro hC hle w2 hw2 hD2
    have hop : Dvg.instruction_from_word (d.load_from_pc m).1 = .JSRL := by
      unfold Dvg.instruction_from_word
      rw [hw, hC]
    have s1 : d.execute_instruction m =
        .ok ({ d with
                 pc := w &&& 0xFFF
                 stack := fun i => if i = d.sp then (d.pc + 1) % 0x10000
                   else d.stack i
                 sp := d.sp + 1 }, m, []) := by
      rw [dvg_exec_jsrl d m hop, if_neg hle, hw]
    have hop2 : Dvg.instruction_from_word
        ((({ d with
               pc := w &&& 0xFFF
               stack := fun i => if i = d.sp then (d.pc + 1) % 0x10000
                 else d.stack i
               sp := d.sp + 1 } : Dvg).load_from_pc m)).1 = .RTSL := by
      unfold Dvg.instruction_from_word
      rw [hw2, hD2]
    unfold dvgStepTwice
    rw [s1]
    dsimp only
    rw [dvg_exec_rtsl _ m hop2, if_neg (by simp)]
    simp

/-- C8 witness: a fifth nested call overflows, a call/return pair restores
the program counter to the word after the call, and a return on an empty
stack underflows. -/
theorem claim_C8_witness :
    ({ dvgFix with sp := 4 } : Dvg).execute_instruction memDvgJsr =
      .error .stackOverflow ∧
    dvgStepTwice dvgFix memDvgJsr =
      .ok ({ dvgFix with
               pc := 2
               stack := fun i => if i = 0 then 2 else dvgFix.stack i },
        memDvgJsr, []) ∧
    ({ dvgFix with sp := 0 } : Dvg).execute_instruction (memDvg 0xD000 0) =
      .error .stackUnderflow := by
  refine ⟨?_, ?_, ?_⟩
  · exact ((claim_C8_call_stack { dvgFix with sp := 4 } memDvgJsr 0xC123
      (by decide)).1 (by decide)).1 (by decide)
  · exact (claim_C8_call_stack dvgFix memDvgJsr 0xC123 (by decide)).2.2.2
      (by decide) (by decide) 0xD000 (by decide) (by decide)
  · exact ((claim_C8_call_stack { dvgFix with sp := 0 } (memDvg 0xD000 0) 0xD000
      (by decide)).2.1 (by decide)).1 rfl

/-- C9: a `VCTR` instruction (top nibble 0–9, two words) moves the cursor by
the signed deltas scaled by `shift(value, 9 − opcodeTopBits + scaleFactor)`;
with intensity 0 no draw primitive is emitted, and with intensity > 0
exactly one primitive is emitted, from the previous cursor position to the
new one, carrying that intensity. -/
theorem claim_C9_vctr_draw (d : Dvg) (m : Memory) (w1 w2 : Nat)
    (h1 : (d.load_from_pc m).1 = w1)
    (h2 : ((({ d with pc := (d.pc + 1) % 0x10000 } : Dvg)).load_from_pc m).1 = w2)
    (htop : (w1 &&& 0xF000) >>> 12 ≤ 9) :
    d.execute_instruction m =
      .ok ({ d with
               pc := ((d.pc + 1) % 0x10000 + 1) % 0x10000
               x := wrap16 (d.x + i16ofU16 (Dvg.shift (0x3FF &&& w2) (9 - (((w1 &&& 0xF000) >>> 12 : Nat) : Int) + d.sf)) *
           (if (0x400 &&& w2) != 0 then -1 else 1))
               y := wrap16 (d.y + i16ofU16 (Dvg.shift (0x3FF &&& w1) (9 - (((w1 &&& 0xF000) >>> 12 : Nat) : Int) + d.sf)) *
           (if (0x400 &&& w1) != 0 then -1 else 1)) },
        m,
        if (0xF000 &&& w2) >>> 12 = 0 then []
        else if wrap16 (d.x + i16ofU16 (Dvg.shift (0x3FF &&& w2) (9 - (((w1 &&& 0xF000) >>> 12 : Nat) : Int) + d.sf)) *
           (if (0x400 &&& w2) != 0 then -1 else 1)) = d.x ∧
            wrap16 (d.y + i16ofU16 (Dvg.shift (0x3FF &&& w1) (9 - (((w1 &&& 0xF000) >>> 12 : Nat) : Int) + d.sf)) *
           (if (0x400 &&& w1) != 0 then -1 else 1)) = d.y then
          [Prim.point (wrap16 (d.x + i16ofU16 (Dvg.shift (0x3FF &&& w2) (9 - (((w1 &&& 0xF000) >>> 12 : Nat) : Int) + d.sf)) *
           (if (0x400 &&& w2) != 0 then -1 else 1)))
            (wrap16 (d.y + i16ofU16 (Dvg.shift (0x3FF &&& w1) (9 - (((w1 &&& 0xF000) >>> 12 : Nat) : Int) + d.sf)) *
           (if (0x400 &&& w1) != 0 then -1 else 1)))
            ((0xF000 &&& w2) >>> 12)]
        else
          [Prim.segment (wrap16 (d.x + i16ofU16 (Dvg.shift (0x3FF &&& w2) (9 - (((w1 &&& 0xF000) >>> 12 : Nat) : Int) + d.sf)) *
           (if (0x400 &&& w2) != 0 then -1 else 1)))
            (wrap16 (d.y + i16ofU16 (Dvg.shift (0x3FF &&& w1) (9 - (((w1 &&& 0xF000) >>> 12 : Nat) : Int) + d.sf)) *
           (if (0x400 &&& w1) != 0 then -1 else 1))) d.x d.y
            ((0xF000 &&& w2) >>> 12)]) := by
  have hop : Dvg.instruction_from_word (d.load_from_pc m).1 = .VCTR := by
    unfold Dvg.instruction_from_word
    rw [h1]
    set t := (w1 &&& 0xF000) >>> 12 with ht
    interval_cases t <;> rfl
  rw [dvg_exec_vctr d m hop, h1, h2]
  dsimp only
  by_cases hz : (0xF000 &&& w2) >>> 12 = 0
  · simp [hz]
  · simp [hz]

/-- C9 witness: the same two-word `VCTR` moves the cursor from (100, 200)
to (98, 201); with intensity 5 exactly one segment from the old cursor to
the new one is emitted, with intensity 0 none. -/
theorem claim_C9_witness :
    dvgFix.execute_instruction (memDvg 0x1100 0x5600) =
      .ok ({ dvgFix with pc := 3, x := 98, y := 201 }, memDvg 0x1100 0x5600,
        [Prim.segment 98 201 100 200 5]) ∧
    dvgFix.execute_instruction (memDvg 0x1100 0x0600) =
      .ok ({ dvgFix with pc := 3, x := 98, y := 201 }, memDvg 0x1100 0x0600,
        []) := by
  constructor
  · exact claim_C9_vctr_draw dvgFix (memDvg 0x1100 0x5600) 0x1100 0x5600
      (by decide) (by decide) (by decide)
  · exact claim_C9_vctr_draw dvgFix (memDvg 0x1100 0x0600) 0x1100 0x0600
      (by decide) (by decide) (by decide)

/-! ## Reduction lemmas for the processor step -/

theorem fetch_brk (c : Cpu) (m : Memory) (hb : m.get_byte c.pc = 0x00) :
    c.fetch_instruction m =
      .ok (⟨c.pc, .BRK, .NA, none⟩, { c with pc := (c.pc + 1) % 0x10000 }) := by
  have e1 : c.load_byte_from_pc m = (0x00, { c with pc := (c.pc + 1) % 0x10000 }) := by
    unfold Cpu.load_byte_from_pc
    rw [hb]
  unfold Cpu.fetch_instruction
  rw [e1]
  rfl

theorem exec_brk (c : Cpu) (m : Memory) (hb : m.get_byte c.pc = 0x00) :
    c.execute_instruction m =
      (let c0 : Cpu := { c with previous_pc := c.pc, pc := (c.pc + 1) % 0x10000 }
       let r1 := c0.push_word c0.pc m
       let r2 := r1.1.push_byte c.p r1.2
       .ok ({ r2.1 with
                pc := Cpu.get_word 0xFFFE r2.2
                p := r2.1.p ||| 0b10000
                cycle := r2.1.cycle + 7 }, r2.2)) := by
  have ef : ({ c with previous_pc := c.pc } : Cpu).fetch_instruction m =
      .ok (⟨c.pc, .BRK, .NA, none⟩,
           { c with previous_pc := c.pc, pc := (c.pc + 1) % 0x10000 }) :=
    fetch_brk { c with previous_pc := c.pc } m hb
  unfold Cpu.execute_instruction
  dsimp only
  rw [ef]
  rfl

theorem fetch_rti (c : Cpu) (m : Memory) (hb : m.get_byte c.pc = 0x40) :
    c.fetch_instruction m =
      .ok (⟨c.pc, .RTI, .NA, none⟩, { c with pc := (c.pc + 1) % 0x10000 }) := by
  have e1 : c.load_byte_from_pc m = (0x40, { c with pc := (c.pc + 1) % 0x10000 }) := by
    unfold Cpu.load_byte_from_pc
    rw [hb]
  unfold Cpu.fetch_instruction
  rw [e1]
  rfl

theorem exec_rti (c : Cpu) (m : Memory) (hb : m.get_byte c.pc = 0x40) :
    c.execute_instruction m =
      (let c0 : Cpu := { c with previous_pc := c.pc, pc := (c.pc + 1) % 0x10000 }
       let r1 := c0.pop_byte m
       let r2 := ({ r1.2 with p := r1.1 } : Cpu).pop_word m
       .ok ({ r2.2 with pc := r2.1, cycle := r2.2.cycle + 6 }, m)) := by
  have ef : ({ c with previous_pc := c.pc } : Cpu).fetch_instruction m =
      .ok (⟨c.pc, .RTI, .NA, none⟩,
           { c with previous_pc := c.pc, pc := (c.pc + 1) % 0x10000 }) :=
    fetch_rti { c with previous_pc := c.pc } m hb
  unfold Cpu.execute_instruction
  dsimp only
  rw [ef]
  rfl

/-- The software-interrupt step, with the stack pointer arithmetic and the
three pushed bytes resolved (`ret` is the address of the byte after the
one-byte `BRK` opcode). -/
theorem brk_step (c : Cpu) (m : Memory) (hb : m.get_byte c.pc = 0x00)
    (hs : c.s < 256) :
    c.execute_instruction m =
      .ok ({ c with
               previous_pc := c.pc
               pc := Cpu.get_word 0xFFFE
                 (((m.set_byte (0x100 + c.s)
                       ((((c.pc + 1) % 0x10000) >>> 8) &&& 0xFF)).set_byte
                     (0x100 + (c.s + 255) % 256) (((c.pc + 1) % 0x10000) &&& 0xFF)).set_byte
                   (0x100 + (c.s + 254) % 256) c.p)
               p := c.p ||| 0b10000
               s := (c.s + 253) % 256
               cycle := c.cycle + 7 },
        ((m.set_byte (0x100 + c.s) ((((c.pc + 1) % 0x10000) >>> 8) &&& 0xFF)).set_byte
            (0x100 + (c.s + 255) % 256) (((c.pc + 1) % 0x10000) &&& 0xFF)).set_byte
          (0x100 + (c.s + 254) % 256) c.p) := by
  rw [exec_brk c m hb]
  by_cases h0 : c.s = 0
  · simp only [Cpu.push_word, Cpu.push_byte, h0]
    norm_num
  · by_cases h1 : c.s = 1
    · simp only [Cpu.push_word, Cpu.push_byte, h1]
      norm_num
    · by_cases h2 : c.s = 2
      · simp only [Cpu.push_word, Cpu.push_byte, h2]
        norm_num
      · have hn1 : ¬ (c.s - 1 = 0) := by omega
        have hn2 : ¬ (c.s - 1 - 1 = 0) := by omega
        simp only [Cpu.push_word, Cpu.push_byte, if_neg h0, if_neg hn1, if_neg hn2]
        have e1 : (c.s + 255) % 256 = c.s - 1 := by omega
        have e2 : (c.s + 254) % 256 = c.s - 1 - 1 := by omega
        have e3 : (c.s + 253) % 256 = c.s - 1 - 1 - 1 := by omega
        rw [e1, e2, e3]

/-- The hardware-interrupt entry, with the stack pointer arithmetic and the
three pushed bytes resolved (the current `pc` itself is pushed). -/
theorem nmi_step (c : Cpu) (m : Memory) (hs : c.s < 256) :
    c.initiate_nmi m =
      ({ c with
           pc := Cpu.get_word 0xFFFA
             (((m.set_byte (0x100 + c.s) ((c.pc >>> 8) &&& 0xFF)).set_byte
                 (0x100 + (c.s + 255) % 256) (c.pc &&& 0xFF)).set_byte
               (0x100 + (c.s + 254) % 256) c.p)
           s := (c.s + 253) % 256
           cycle := c.cycle + 7 },
       ((m.set_byte (0x100 + c.s) ((c.pc >>> 8) &&& 0xFF)).set_byte
           (0x100 + (c.s + 255) % 256) (c.pc &&& 0xFF)).set_byte
         (0x100 + (c.s + 254) % 256) c.p) := by
  unfold Cpu.initiate_nmi
  by_cases h0 : c.s = 0
  · simp only [Cpu.push_word, Cpu.push_byte, h0]
    norm_num
  · by_cases h1 : c.s = 1
    · simp only [Cpu.push_word, Cpu.push_byte, h1]
      norm_num
    · by_cases h2 : c.s = 2
      · simp only [Cpu.push_word, Cpu.push_byte, h2]
        norm_num
      · have hn1 : ¬ (c.s - 1 = 0) := by omega
        have hn2 : ¬ (c.s - 1 - 1 = 0) := by omega
        simp only [Cpu.push_word, Cpu.push_byte, if_neg h0, if_neg hn1, if_neg hn2]
        have e1 : (c.s + 255) % 256 = c.s - 1 := by omega
        have e2 : (c.s + 254) % 256 = c.s - 1 - 1 := by omega
        have e3 : (c.s + 253) % 256 = c.s - 1 - 1 - 1 := by omega
        rw [e1, e2, e3]

/-- A word read from outside working RAM is unaffected by a write into
working RAM. -/
theorem get_word_set_byte_ram_out (m : Memory) (addr a v : Nat) (ha : a < 0x400)
    (h1 : ¬ addr &&& 0x7FFF < 0x400) (h2 : ¬ (addr + 1) &&& 0x7FFF < 0x400) :
    Cpu.get_word addr (m.set_byte a v) = Cpu.get_word addr m := by
  unfold Cpu.get_word
  rw [get_byte_set_byte_ram_out _ _ _ _ ha h1, get_byte_set_byte_ram_out _ _ _ _ ha h2]

set_option maxRecDepth 10000 in
/-- C1 (amended): both interrupt entries push the program counter high byte
then low byte then the pre-entry status register, load the program counter
from the fixed vector (0xFFFE for the software interrupt, 0xFFFA for the
hardware interrupt) out of unmodified memory, and add exactly 7 cycles; the
software interrupt pushes the return address `pc + 1` (the byte after the
one-byte opcode) and sets the break flag only after pushing, so the pushed
status is the pre-entry one; neither entry touches the interrupt-disable
flag. -/
theorem claim_C1_interrupt_entry (c : Cpu) (m : Memory)
    (hs : c.s < 256) (hp : c.p < 256) :
    (m.get_byte c.pc = 0x00 →
      c.execute_instruction m =
        .ok ({ c with
                 previous_pc := c.pc
                 pc := Cpu.get_word 0xFFFE
                   (((m.set_byte (0x100 + c.s)
                         ((((c.pc + 1) % 0x10000) >>> 8) &&& 0xFF)).set_byte
                       (0x100 + (c.s + 255) % 256)
                       (((c.pc + 1) % 0x10000) &&& 0xFF)).set_byte
                     (0x100 + (c.s + 254) % 256) c.p)
                 p := c.p ||| 0b10000
                 s := (c.s + 253) % 256
                 cycle := c.cycle + 7 },
          ((m.set_byte (0x100 + c.s)
               ((((c.pc + 1) % 0x10000) >>> 8) &&& 0xFF)).set_byte
              (0x100 + (c.s + 255) % 256) (((c.pc + 1) % 0x10000) &&& 0xFF)).set_byte
            (0x100 + (c.s + 254) % 256) c.p) ∧
      (((m.set_byte (0x100 + c.s)
            ((((c.pc + 1) % 0x10000) >>> 8) &&& 0xFF)).set_byte
           (0x100 + (c.s + 255) % 256) (((c.pc + 1) % 0x10000) &&& 0xFF)).set_byte
         (0x100 + (c.s + 254) % 256) c.p).get_byte (0x100 + c.s) =
        (((c.pc + 1) % 0x10000) >>> 8) &&& 0xFF ∧
      (((m.set_byte (0x100 + c.s)
            ((((c.pc + 1) % 0x10000) >>> 8) &&& 0xFF)).set_byte
           (0x100 + (c.s + 255) % 256) (((c.pc + 1) % 0x10000) &&& 0xFF)).set_byte
         (0x100 + (c.s + 254) % 256) c.p).get_byte (0x100 + (c.s + 255) % 256) =
        ((c.pc + 1) % 0x10000) &&& 0xFF ∧
      (((m.set_byte (0x100 + c.s)
            ((((c.pc + 1) % 0x10000) >>> 8) &&& 0xFF)).set_byte
           (0x100 + (c.s + 255) % 256) (((c.pc + 1) % 0x10000) &&& 0xFF)).set_byte
         (0x100 + (c.s + 254) % 256) c.p).get_byte (0x100 + (c.s + 254) % 256) =
        c.p ∧
      Cpu.get_word 0xFFFE
          (((m.set_byte (0x100 + c.s)
                ((((c.pc + 1) % 0x10000) >>> 8) &&& 0xFF)).set_byte
              (0x100 + (c.s + 255) % 256)
              (((c.pc + 1) % 0x10000) &&& 0xFF)).set_byte
            (0x100 + (c.s + 254) % 256) c.p) =
        Cpu.get_word 0xFFFE m) ∧
    (c.initiate_nmi m =
      ({ c with
           pc := Cpu.get_word 0xFFFA
             (((m.set_byte (0x100 + c.s) ((c.pc >>> 8) &&& 0xFF)).set_byte
                 (0x100 + (c.s + 255) % 256) (c.pc &&& 0xFF)).set_byte
               (0x100 + (c.s + 254) % 256) c.p)
           s := (c.s + 253) % 256
           cycle := c.cycle + 7 },
       ((m.set_byte (0x100 + c.s) ((c.pc >>> 8) &&& 0xFF)).set_byte
           (0x100 + (c.s + 255) % 256) (c.pc &&& 0xFF)).set_byte
         (0x100 + (c.s + 254) % 256) c.p) ∧
      Cpu.get_word 0xFFFA
          (((m.set_byte (0x100 + c.s) ((c.pc >>> 8) &&& 0xFF)).set_byte
              (0x100 + (c.s + 255) % 256) (c.pc &&& 0xFF)).set_byte
            (0x100 + (c.s + 254) % 256) c.p) =
        Cpu.get_word 0xFFFA m) ∧
    (c.p ||| 0b10000) &&& 0b100 = c.p &&& 0b100 := by
  have hA1 : 0x100 + c.s < 0x400 := by omega
  have hA2 : 0x100 + (c.s + 255) % 256 < 0x400 := by omega
  have hA3 : 0x100 + (c.s + 254) % 256 < 0x400 := by omega
  refine ⟨?_, ⟨nmi_step c m hs, ?_⟩, ?_⟩
  · intro hb
    refine ⟨brk_step c m hb hs, ?_, ?_, ?_, ?_⟩
    · rw [get_byte_set_byte_ram _ _ _ _ hA3 hA1, if_neg (by omega),
        get_byte_set_byte_ram _ _ _ _ hA2 hA1, if_neg (by omega),
        get_byte_set_byte_ram _ _ _ _ hA1 hA1, if_pos rfl]
    · rw [get_byte_set_byte_ram _ _ _ _ hA3 hA2, if_neg (by omega),
        get_byte_set_byte_ram _ _ _ _ hA2 hA2, if_pos rfl]
    · rw [get_byte_set_byte_ram _ _ _ _ hA3 hA3, if_pos rfl]
    · rw [get_word_set_byte_ram_out _ _ _ _ hA3 (by decide) (by decide),
        get_word_set_byte_ram_out _ _ _ _ hA2 (by decide) (by decide),
        get_word_set_byte_ram_out _ _ _ _ hA1 (by decide) (by decide)]
  · rw [get_word_set_byte_ram_out _ _ _ _ hA3 (by decide) (by decide),
      get_word_set_byte_ram_out _ _ _ _ hA2 (by decide) (by decide),
      get_word_set_byte_ram_out _ _ _ _ hA1 (by decide) (by decide)]
  · have hgen : ∀ p < 256, (p ||| 0b10000) &&& 0b100 = p &&& 0b100 := by decide
    exact hgen c.p hp

/-- C1 counterexample to the claim as stated: executing the software
interrupt from a state whose status register is 0 leaves the
interrupt-disable flag (bit 2) clear — the entry does not set it. -/
theorem claim_C1_counterexample :
    ¬ (((cpuAt 0x200 0xFF 0 0).execute_instruction memZero).toOption.map
        (fun r => r.1.p &&& 0b100) = some 0b100) := by decide

/-- C1 witness: the software interrupt from `pc = 0x200`, `s = 0xFF`,
`p = 0` pushes 0x02, 0x01 (the return address 0x201) and 0x00 (the pushed
status, without the break flag), sets `p = 0x10`, `s = 252`, takes the zero
vector and 7 cycles; the hardware interrupt leaves `p` at 0. -/
theorem claim_C1_witness :
    ((cpuAt 0x200 0xFF 0 0).execute_instruction memZero).toOption.map
        (fun r => (r.1.p, r.1.s, r.1.cycle, r.1.pc, r.2.get_byte 0x1FF,
          r.2.get_byte 0x1FE, r.2.get_byte 0x1FD)) =
      some (0x10, 252, 7, 0, 2, 1, 0) ∧
    ((cpuAt 0x200 0xFF 0 0).initiate_nmi memZero).1.p = 0 := by
  obtain ⟨hB, hN, -⟩ :=
    claim_C1_interrupt_entry (cpuAt 0x200 0xFF 0 0) memZero (by decide) (by decide)
  obtain ⟨hstep, -, -, -, -⟩ := hB (by decide)
  constructor
  · rw [hstep]
    rfl
  · rw [hN.1]
    rfl

theorem lor_lo_hi (r : Nat) :
    (r &&& 0xFF) ||| (((r >>> 8) &&& 0xFF) <<< 8) = r % 0x10000 := by
  apply Nat.eq_of_testBit_eq
  intro i
  have hff : (0xFF : Nat) = 2 ^ 8 - 1 := by norm_num
  have h16 : (0x10000 : Nat) = 2 ^ 16 := by norm_num
  rw [hff, h16, Nat.testBit_lor, Nat.testBit_land, Nat.testBit_shiftLeft,
    Nat.testBit_land, Nat.testBit_two_pow_sub_one, Nat.testBit_two_pow_sub_one,
    Nat.testBit_shiftRight, Nat.testBit_mod_two_pow]
  by_cases h8 : 8 ≤ i
  · have d0 : decide (i < 8) = false := by simp; omega
    have d1 : decide (i ≥ 8) = true := by simp [h8]
    have he : 8 + (i - 8) = i := by omega
    rw [d0, d1, he]
    by_cases h16' : i < 16
    · have d2 : decide (i - 8 < 8) = true := by simp; omega
      have d3 : decide (i < 16) = true := by simp [h16']
      rw [d2, d3]
      simp
    · have d2 : decide (i - 8 < 8) = false := by simp; omega
      have d3 : decide (i < 16) = false := by simp [h16']
      rw [d2, d3]
      simp
  · have d0 : decide (i < 8) = true := by simp; omega
    have d1 : decide (i ≥ 8) = false := by simp [h8]
    have d3 : decide (i < 16) = true := by simp; omega
    rw [d0, d1, d3]
    simp

/-- The return-from-interrupt step, with the stack pointer arithmetic and
the three popped bytes resolved: status is popped first, then the program
counter low and high bytes. -/
theorem rti_step (c : Cpu) (m : Memory) (hb : m.get_byte c.pc = 0x40)
    (hs : c.s < 256) :
    c.execute_instruction m =
      .ok ({ c with
               previous_pc := c.pc
               pc := m.get_byte (0x100 + (c.s + 2) % 256) |||
                 (m.get_byte (0x100 + (c.s + 3) % 256) <<< 8)
               p := m.get_byte (0x100 + (c.s + 1) % 256)
               s := (c.s + 3) % 256
               cycle := c.cycle + 6 }, m) := by
  rw [exec_rti c m hb]
  by_cases h0 : c.s = 0xFF
  · simp only [Cpu.pop_word, Cpu.pop_byte, h0]
    norm_num
  · by_cases h1 : c.s = 0xFE
    · simp only [Cpu.pop_word, Cpu.pop_byte, h1]
      norm_num
    · by_cases h2 : c.s = 0xFD
      · simp only [Cpu.pop_word, Cpu.pop_byte, h2]
        norm_num
      · have e1 : ¬ (c.s + 1 = 0xFF) := by omega
        have e2 : ¬ (c.s + 1 + 1 = 0xFF) := by omega
        simp only [Cpu.pop_word, Cpu.pop_byte, if_neg h0, if_neg e1, if_neg e2]
        rw [show (c.s + 1) % 256 = c.s + 1 by omega,
          show (c.s + 2) % 256 = c.s + 1 + 1 by omega,
          show (c.s + 3) % 256 = c.s + 1 + 1 + 1 by omega]

/-- C2 (amended): a software interrupt followed by return-from-interrupt,
with the stack contents untouched in between, restores the status register
bit-for-bit and restores the program counter to `pc + 1` — the address
immediately after the one-byte software-interrupt opcode (the opcode is
fetched as a one-byte instruction, not a two-byte one), at a total cost of
13 cycles, leaving only the three pushed stack bytes behind in memory. -/
theorem claim_C2_brk_rti (c : Cpu) (m : Memory)
    (hb : m.get_byte c.pc = 0x00) (hs : c.s < 256)
    (hv : 0x6800 ≤ Cpu.get_word 0xFFFE m &&& 0x7FFF)
    (hr : m.get_byte (Cpu.get_word 0xFFFE m) = 0x40) :
    stepTwice c m =
      .ok ({ c with
               previous_pc := Cpu.get_word 0xFFFE m
               pc := (c.pc + 1) % 0x10000
               p := c.p
               s := c.s
               cycle := c.cycle + 13 },
        ((m.set_byte (0x100 + c.s)
           ((((c.pc + 1) % 0x10000) >>> 8) &&& 0xFF)).set_byte
          (0x100 + (c.s + 255) % 256) (((c.pc + 1) % 0x10000) &&& 0xFF)).set_byte
        (0x100 + (c.s + 254) % 256) c.p) := by
  have hA1 : 0x100 + c.s < 0x400 := by omega
  have hA2 : 0x100 + (c.s + 255) % 256 < 0x400 := by omega
  have hA3 : 0x100 + (c.s + 254) % 256 < 0x400 := by omega
  have hvec : Cpu.get_word 0xFFFE
      (((m.set_byte (0x100 + c.s)
           ((((c.pc + 1) % 0x10000) >>> 8) &&& 0xFF)).set_byte
          (0x100 + (c.s + 255) % 256) (((c.pc + 1) % 0x10000) &&& 0xFF)).set_byte
        (0x100 + (c.s + 254) % 256) c.p) = Cpu.get_word 0xFFFE m := by
    rw [get_word_set_byte_ram_out _ _ _ _ hA3 (by decide) (by decide),
      get_word_set_byte_ram_out _ _ _ _ hA2 (by decide) (by decide),
      get_word_set_byte_ram_out _ _ _ _ hA1 (by decide) (by decide)]
  have hnr : ¬ (Cpu.get_word 0xFFFE m) &&& 0x7FFF < 0x400 := by omega
  have hrti : (((m.set_byte (0x100 + c.s)
           ((((c.pc + 1) % 0x10000) >>> 8) &&& 0xFF)).set_byte
          (0x100 + (c.s + 255) % 256) (((c.pc + 1) % 0x10000) &&& 0xFF)).set_byte
        (0x100 + (c.s + 254) % 256) c.p).get_byte (Cpu.get_word 0xFFFE m) = 0x40 := by
    rw [get_byte_set_byte_ram_out _ _ _ _ hA3 hnr,
      get_byte_set_byte_ram_out _ _ _ _ hA2 hnr,
      get_byte_set_byte_ram_out _ _ _ _ hA1 hnr]
    exact hr
  unfold stepTwice
  rw [brk_step c m hb hs]
  dsimp only
  rw [rti_step _ _
    (show (((m.set_byte (0x100 + c.s)
           ((((c.pc + 1) % 0x10000) >>> 8) &&& 0xFF)).set_byte
          (0x100 + (c.s + 255) % 256) (((c.pc + 1) % 0x10000) &&& 0xFF)).set_byte
        (0x100 + (c.s + 254) % 256) c.p).get_byte (Cpu.get_word 0xFFFE
        (((m.set_byte (0x100 + c.s)
           ((((c.pc + 1) % 0x10000) >>> 8) &&& 0xFF)).set_byte
          (0x100 + (c.s + 255) % 256) (((c.pc + 1) % 0x10000) &&& 0xFF)).set_byte
        (0x100 + (c.s + 254) % 256) c.p)) = 0x40 by rw [hvec]; exact hrti)
    (show (c.s + 253) % 256 < 256 by omega)]
  dsimp only
  rw [show ((c.s + 253) % 256 + 1) % 256 = (c.s + 254) % 256 by omega,
    show ((c.s + 253) % 256 + 2) % 256 = (c.s + 255) % 256 by omega,
    show ((c.s + 253) % 256 + 3) % 256 = c.s by omega,
    hvec]
  rw [get_byte_set_byte_ram _ _ _ _ hA3 hA3, if_pos rfl]
  rw [get_byte_set_byte_ram _ _ _ _ hA3 hA2, if_neg (by omega),
    get_byte_set_byte_ram _ _ _ _ hA2 hA2, if_pos rfl]
  rw [get_byte_set_byte_ram _ _ _ _ hA3 hA1, if_neg (by omega),
    get_byte_set_byte_ram _ _ _ _ hA2 hA1, if_neg (by omega),
    get_byte_set_byte_ram _ _ _ _ hA1 hA1, if_pos rfl]
  rw [lor_lo_hi,
    show ((c.pc + 1) % 0x10000) % 0x10000 = (c.pc + 1) % 0x10000 by omega,
    show c.cycle + 7 + 6 = c.cycle + 13 by omega]

/-- C2 counterexample to the claim as stated: from a software interrupt at
0x200, the interrupt/return round trip resumes at 0x201 — not 0x202, the
address a two-byte software-interrupt instruction would imply. -/
theorem claim_C2_counterexample :
    ¬ ((stepTwice (cpuAt 0x200 2 0x55 0) memRtiAt0).toOption.map
        (fun r => r.1.pc) = some 0x202) := by decide

/-- C2 witness: software interrupt at 0x200 with status 0x55, vector
pointing at a return-from-interrupt in program ROM: the round trip resumes
at 0x201 with status 0x55, stack pointer restored, 13 cycles consumed. -/
theorem claim_C2_witness :
    (stepTwice (cpuAt 0x200 2 0x55 0) memBrkRom).toOption.map
        (fun r => (r.1.pc, r.1.p, r.1.s, r.1.cycle)) =
      some (0x201, 0x55, 2, 13) := by
  rw [claim_C2_brk_rti (cpuAt 0x200 2 0x55 0) memBrkRom (by decide) (by decide)
    (by decide) (by decide)]
  rfl

set_option maxRecDepth 10000 in
theorem branch_opcode_cases (b : Nat) (hblt : b < 256)
    (hbr : b &&& 0b11111 = 0b10000) :
    b = 0x10 ∨ b = 0x30 ∨ b = 0x50 ∨ b = 0x70 ∨
    b = 0x90 ∨ b = 0xB0 ∨ b = 0xD0 ∨ b = 0xF0 := by
  have h : ∀ x < 256, x &&& 0b11111 = 0b10000 →
      (x = 0x10 ∨ x = 0x30 ∨ x = 0x50 ∨ x = 0x70 ∨
       x = 0x90 ∨ x = 0xB0 ∨ x = 0xD0 ∨ x = 0xF0) := by decide
  exact h b hblt hbr

theorem fetch_branch (c : Cpu) (m : Memory) (b : Nat) (hb : m.get_byte c.pc = b)
    (hbr : b &&& 0b11111 = 0b10000) (hblt : b < 256) :
    c.fetch_instruction m =
      .ok (⟨c.pc, branchInstruction b, .Immediate,
            some (m.get_byte ((c.pc + 1) % 0x10000))⟩,
           { c with pc := ((c.pc + 1) % 0x10000 + 1) % 0x10000 }) := by
  rcases branch_opcode_cases b hblt hbr with
    rfl | rfl | rfl | rfl | rfl | rfl | rfl | rfl <;>
  · unfold Cpu.fetch_instruction Cpu.load_byte_from_pc Cpu.fetch_operand
    rw [hb]
    rfl

set_option maxHeartbeats 4000000 in
/-- C3 (amended): a conditional branch costs 2 cycles when not taken; when
taken it costs 3 if the target lies in the same 256-byte page as the
instruction following the branch and differs from it, 4 if the target
crosses a page — but a taken branch whose displacement is 0 (its target is
exactly the following instruction) costs 2, indistinguishable from a branch
not taken. -/
theorem claim_C3_branch_cycles (c : Cpu) (m : Memory) (b d : Nat)
    (hb : m.get_byte c.pc = b) (hbr : b &&& 0b11111 = 0b10000) (hblt : b < 256)
    (hd : m.get_byte ((c.pc + 1) % 0x10000) = d) (hdlt : d < 256)
    (hpc : c.pc + 2 < 0x10000) :
    c.execute_instruction m =
      .ok ({ c with
               previous_pc := c.pc
               pc := if branchTaken b c.p then branchTarget c.pc d else c.pc + 2
               cycle := c.cycle +
                 (if branchTaken b c.p then
                    (if branchTarget c.pc d = c.pc + 2 then 2
                     else if branchTarget c.pc d / 0x100 = (c.pc + 2) / 0x100 then 3
                     else 4)
                  else 2) }, m) := by
  have hp2 : ((c.pc + 1) % 0x10000 + 1) % 0x10000 = c.pc + 2 := by omega
  have hm2 : (c.pc + 2) % 0x10000 = c.pc + 2 := by omega
  rcases branch_opcode_cases b hblt hbr with
    rfl | rfl | rfl | rfl | rfl | rfl | rfl | rfl
  · unfold Cpu.execute_instruction
    dsimp only
    rw [fetch_branch { c with previous_pc := c.pc } m 0x10 hb (by decide) (by decide)]
    rw [show branchInstruction 0x10 = Instruction.BPL from rfl]
    dsimp only
    rw [hp2, hd]
    by_cases hn : c.p &&& 0x80 = 0x80
    · simp only [Cpu.realise_operand, Cpu.negative_set, Cpu.overflow_set, Cpu.carry_set, Cpu.zero_set, Cpu.decimal_set, Cpu.flag_set,
        Cpu.instruction_cycles, branchTaken, branchTarget, hn, hd,
        Option.getD_some, beq_self_eq_true, if_true, bne_self_eq_false,
        Bool.false_eq_true, if_false, hm2]
      simp [hm2]
    · simp only [Cpu.realise_operand, Cpu.negative_set, Cpu.overflow_set, Cpu.carry_set, Cpu.zero_set, Cpu.decimal_set, Cpu.flag_set,
        Cpu.instruction_cycles, branchTaken, branchTarget, Cpu.branch, hn, hd,
        Option.getD_some, hm2, bne_iff_ne, ne_eq, not_false_eq_true, if_true]
      have hnb : (c.p &&& 0x80 == 0x80) = false := by
        simp [hn]
      rw [hnb]
      simp only [Bool.false_eq_true, if_false]
      by_cases hsign : d &&& 0x80 = 0x80
      · simp only [if_pos hsign]
        rw [land_ff00, land_ff00, hm2]
        split_ifs <;> first | rfl | (exfalso; omega)
      · simp only [if_neg hsign]
        rw [land_ff00, land_ff00, hm2]
        split_ifs <;> first | rfl | (exfalso; omega)
  · unfold Cpu.execute_instruction
    dsimp only
    rw [fetch_branch { c with previous_pc := c.pc } m 0x30 hb (by decide) (by decide)]
    rw [show branchInstruction 0x30 = Instruction.BMI from rfl]
    dsimp only
    rw [hp2, hd]
    by_cases hn : c.p &&& 0x80 = 0x80
    · simp only [Cpu.realise_operand, Cpu.negative_set, Cpu.overflow_set, Cpu.carry_set, Cpu.zero_set, Cpu.decimal_set, Cpu.flag_set,
        Cpu.instruction_cycles, branchTaken, branchTarget, Cpu.branch, hn, hd,
        Option.getD_some, hm2, beq_self_eq_true, if_true]
      by_cases hsign : d &&& 0x80 = 0x80
      · simp only [if_pos hsign]
        rw [land_ff00, land_ff00, hm2]
        split_ifs <;> first | rfl | (exfalso; omega)
      · simp only [if_neg hsign]
        rw [land_ff00, land_ff00, hm2]
        split_ifs <;> first | rfl | (exfalso; omega)
    · have hnb : (c.p &&& 0x80 == 0x80) = false := by
        simp [hn]
      simp only [Cpu.realise_operand, Cpu.negative_set, Cpu.overflow_set, Cpu.carry_set, Cpu.zero_set, Cpu.decimal_set, Cpu.flag_set,
        Cpu.instruction_cycles, branchTaken, branchTarget, hn, hd,
        Option.getD_some, hm2]
      rw [hnb]
      simp only [Bool.false_eq_true, if_false]
      simp [hm2]
  · unfold Cpu.execute_instruction
    dsimp only
    rw [fetch_branch { c with previous_pc := c.pc } m 0x50 hb (by decide) (by decide)]
    rw [show branchInstruction 0x50 = Instruction.BVC from rfl]
    dsimp only
    rw [hp2, hd]
    by_cases hn : c.p &&& 0x40 = 0x40
    · simp only [Cpu.realise_operand, Cpu.negative_set, Cpu.overflow_set, Cpu.carry_set, Cpu.zero_set, Cpu.decimal_set, Cpu.flag_set,
        Cpu.instruction_cycles, branchTaken, branchTarget, hn, hd,
        Option.getD_some, beq_self_eq_true, if_true, bne_self_eq_false,
        Bool.false_eq_true, if_false, hm2]
      simp [hm2]
    · simp only [Cpu.realise_operand, Cpu.negative_set, Cpu.overflow_set, Cpu.carry_set, Cpu.zero_set, Cpu.decimal_set, Cpu.flag_set,
        Cpu.instruction_cycles, branchTaken, branchTarget, Cpu.branch, hn, hd,
        Option.getD_some, hm2, bne_iff_ne, ne_eq, not_false_eq_true, if_true]
      have hnb : (c.p &&& 0x40 == 0x40) = false := by
        simp [hn]
      rw [hnb]
      simp only [Bool.false_eq_true, if_false]
      by_cases hsign : d &&& 0x80 = 0x80
      · simp only [if_pos hsign]
        rw [land_ff00, land_ff00, hm2]
        split_ifs <;> first | rfl | (exfalso; omega)
      · simp only [if_neg hsign]
        rw [land_ff00, land_ff00, hm2]
        split_ifs <;> first | rfl | (exfalso; omega)
  · unfold Cpu.execute_instruction
    dsimp only
    rw [fetch_branch { c with previous_pc := c.pc } m 0x70 hb (by decide) (by decide)]
    rw [show branchInstruction 0x70 = Instruction.BVS from rfl]
    dsimp only
    rw [hp2, hd]
    by_cases hn : c.p &&& 0x40 = 0x40
    · simp only [Cpu.realise_operand, Cpu.negative_set, Cpu.overflow_set, Cpu.carry_set, Cpu.zero_set, Cpu.decimal_set, Cpu.flag_set,
        Cpu.instruction_cycles, branchTaken, branchTarget, Cpu.branch, hn, hd,
        Option.getD_some, hm2, beq_self_eq_true, if_true]
      by_cases hsign : d &&& 0x80 = 0x80
      · simp only [if_pos hsign]
        rw [land_ff00, land_ff00, hm2]
        split_ifs <;> first | rfl | (exfalso; omega)
      · simp only [if_neg hsign]
        rw [land_ff00, land_ff00, hm2]
        split_ifs <;> first | rfl | (exfalso; omega)
    · have hnb : (c.p &&& 0x40 == 0x40) = false := by
        simp [hn]
      simp only [Cpu.realise_operand, Cpu.negative_set, Cpu.overflow_set, Cpu.carry_set, Cpu.zero_set, Cpu.decimal_set, Cpu.flag_set,
        Cpu.instruction_cycles, branchTaken, branchTarget, hn, hd,
        Option.getD_some, hm2]
      rw [hnb]
      simp only [Bool.false_eq_true, if_false]
      simp [hm2]
  · unfold Cpu.execute_instruction
    dsimp only
    rw [fetch_branch { c with previous_pc := c.pc } m 0x90 hb (by decide) (by decide)]
    rw [show branchInstruction 0x90 = Instruction.BCC from rfl]
    dsimp only
    rw [hp2, hd]
    by_cases hn : c.p &&& 0x1 = 0x1
    · simp only [Cpu.realise_operand, Cpu.negative_set, Cpu.overflow_set, Cpu.carry_set, Cpu.zero_set, Cpu.decimal_set, Cpu.flag_set,
        Cpu.instruction_cycles, branchTaken, branchTarget, hn, hd,
        Option.getD_some, beq_self_eq_true, if_true, bne_self_eq_false,
        Bool.false_eq_true, if_false, hm2]
      simp [hm2]
    · simp only [Cpu.realise_operand, Cpu.negative_set, Cpu.overflow_set, Cpu.carry_set, Cpu.zero_set, Cpu.decimal_set, Cpu.flag_set,
        Cpu.instruction_cycles, branchTaken, branchTarget, Cpu.branch, hn, hd,
        Option.getD_some, hm2, bne_iff_ne, ne_eq, not_false_eq_true, if_true]
      have hnb : (c.p &&& 0x1 == 0x1) = false := by
        simp only [beq_eq_false_iff_ne, ne_eq]
        exact hn
      rw [hnb]
      simp only [Bool.false_eq_true, if_false]
      by_cases hsign : d &&& 0x80 = 0x80
      · simp only [if_pos hsign]
        rw [land_ff00, land_ff00, hm2]
        split_ifs <;> first | rfl | (exfalso; omega)
      · simp only [if_neg hsign]
        rw [land_ff00, land_ff00, hm2]
        split_ifs <;> first | rfl | (exfalso; omega)
  · unfold Cpu.execute_instruction
    dsimp only
    rw [fetch_branch { c with previous_pc := c.pc } m 0xB0 hb (by decide) (by decide)]
    rw [show branchInstruction 0xB0 = Instruction.BCS from rfl]
    dsimp only
    rw [hp2, hd]
    by_cases hn : c.p &&& 0x1 = 0x1
    · simp only [Cpu.realise_operand, Cpu.negative_set, Cpu.overflow_set, Cpu.carry_set, Cpu.zero_set, Cpu.decimal_set, Cpu.flag_set,
        Cpu.instruction_cycles, branchTaken, branchTarget, Cpu.branch, hn, hd,
        Option.getD_some, hm2, beq_self_eq_true, if_true]
      by_cases hsign : d &&& 0x80 = 0x80
      · simp only [if_pos hsign]
        rw [land_ff00, land_ff00, hm2]
        split_ifs <;> first | rfl | (exfalso; omega)
      · simp only [if_neg hsign]
        rw [land_ff00, land_ff00, hm2]
        split_ifs <;> first | rfl | (exfalso; omega)
    · have hnb : (c.p &&& 0x1 == 0x1) = false := by
        simp only [beq_eq_false_iff_ne, ne_eq]
        exact hn
      simp only [Cpu.realise_operand, Cpu.negative_set, Cpu.overflow_set, Cpu.carry_set, Cpu.zero_set, Cpu.decimal_set, Cpu.flag_set,
        Cpu.instruction_cycles, branchTaken, branchTarget, hn, hd,
        Option.getD_some, hm2]
      rw [hnb]
      simp only [Bool.false_eq_true, if_false]
      simp [hm2]
  · unfold Cpu.execute_instruction
    dsimp only
    rw [fetch_branch { c with previous_pc := c.pc } m 0xD0 hb (by decide) (by decide)]
    rw [show branchInstruction 0xD0 = Instruction.BNE from rfl]
    dsimp only
    rw [hp2, hd]
    by_cases hn : c.p &&& 0x2 = 0x2
    · simp only [Cpu.realise_operand, Cpu.negative_set, Cpu.overflow_set, Cpu.carry_set, Cpu.zero_set, Cpu.decimal_set, Cpu.flag_set,
        Cpu.instruction_cycles, branchTaken, branchTarget, hn, hd,
        Option.getD_some, beq_self_eq_true, if_true, bne_self_eq_false,
        Bool.false_eq_true, if_false, hm2]
      simp [hm2]
    · simp only [Cpu.realise_operand, Cpu.negative_set, Cpu.overflow_set, Cpu.carry_set, Cpu.zero_set, Cpu.decimal_set, Cpu.flag_set,
        Cpu.instruction_cycles, branchTaken, branchTarget, Cpu.branch, hn, hd,
        Option.getD_some, hm2, bne_iff_ne, ne_eq, not_false_eq_true, if_true]
      have hnb : (c.p &&& 0x2 == 0x2) = false := by
        simp [hn]
      rw [hnb]
      simp only [Bool.false_eq_true, if_false]
      by_cases hsign : d &&& 0x80 = 0x80
      · simp only [if_pos hsign]
        rw [land_ff00, land_ff00, hm2]
        split_ifs <;> first | rfl | (exfalso; omega)
      · simp only [if_neg hsign]
        rw [land_ff00, land_ff00, hm2]
        split_ifs <;> first | rfl | (exfalso; omega)
  · unfold Cpu.execute_instruction
    dsimp only
    rw [fetch_branch { c with previous_pc := c.pc } m 0xF0 hb (by decide) (by decide)]
    rw [show branchInstruction 0xF0 = Instruction.BEQ from rfl]
    dsimp only
    rw [hp2, hd]
    by_cases hn : c.p &&& 0x2 = 0x2
    · simp only [Cpu.realise_operand, Cpu.negative_set, Cpu.overflow_set, Cpu.carry_set, Cpu.zero_set, Cpu.decimal_set, Cpu.flag_set,
        Cpu.instruction_cycles, branchTaken, branchTarget, Cpu.branch, hn, hd,
        Option.getD_some, hm2, beq_self_eq_true, if_true]
      by_cases hsign : d &&& 0x80 = 0x80
      · simp only [if_pos hsign]
        rw [land_ff00, land_ff00, hm2]
        split_ifs <;> first | rfl | (exfalso; omega)
      · simp only [if_neg hsign]
        rw [land_ff00, land_ff00, hm2]
        split_ifs <;> first | rfl | (exfalso; omega)
    · have hnb : (c.p &&& 0x2 == 0x2) = false := by
        simp [hn]
      simp only [Cpu.realise_operand, Cpu.negative_set, Cpu.overflow_set, Cpu.carry_set, Cpu.zero_set, Cpu.decimal_set, Cpu.flag_set,
        Cpu.instruction_cycles, branchTaken, branchTarget, hn, hd,
        Option.getD_some, hm2]
      rw [hnb]
      simp only [Bool.false_eq_true, if_false]
      simp [hm2]

theorem claim_C3_witness :
    (cpuAt 0x200 0xFF 0 0).execute_instruction (memBr 0xD0 0x10) =
      .ok ({ cpuAt 0x200 0xFF 0 0 with
               previous_pc := 0x200
               pc := 0x212
               cycle := 3 }, memBr 0xD0 0x10) := by
  rw [claim_C3_branch_cycles (cpuAt 0x200 0xFF 0 0) (memBr 0xD0 0x10) 0xD0 0x10
      rfl (by decide) (by decide) rfl (by decide) (by decide)]
  rfl

theorem claim_C3_counterexample :
    ((cpuAt 0x200 0xFF 0x2 0).execute_instruction (memBr 0xF0 0x00)).toOption.map
        (fun r => (r.1.pc, r.1.cycle - (cpuAt 0x200 0xFF 0x2 0).cycle)) =
      some (0x202, 2) ∧
    branchTaken 0xF0 (cpuAt 0x200 0xFF 0x2 0).p = true ∧
    branchTarget 0x200 0x00 / 0x100 = (0x200 + 2) / 0x100 := by
  refine ⟨rfl, rfl, rfl⟩

theorem update_flag_cycle (c : Cpu) (b : Bool) (m : Nat) :
    (c.update_flag b m).cycle = c.cycle := by
  unfold Cpu.update_flag
  split <;> rfl

theorem update_flag_x (c : Cpu) (b : Bool) (m : Nat) :
    (c.update_flag b m).x = c.x := by
  unfold Cpu.update_flag
  split <;> rfl

theorem fetch_lda_absx (c : Cpu) (m : Memory) (hb : m.get_byte c.pc = 0xBD) :
    c.fetch_instruction m =
      .ok (⟨c.pc, .LDA, .AbsoluteOffsetX,
            some (m.get_byte ((c.pc + 1) % 0x10000) |||
                  m.get_byte (((c.pc + 1) % 0x10000 + 1) % 0x10000) <<< 8)⟩,
           { c with pc := (((c.pc + 1) % 0x10000 + 1) % 0x10000 + 1) % 0x10000 }) := by
  unfold Cpu.fetch_instruction Cpu.load_byte_from_pc Cpu.fetch_operand Cpu.load_word_from_pc
  rw [hb]
  rfl

/-- C5: a load-accumulator instruction in absolute-indexed-X mode costs 4
cycles plus one exactly when the indexed effective address falls in a
different 256-byte page than the unindexed base address. -/
theorem claim_C5_absolute_indexed_cycles (c : Cpu) (m : Memory) (b : Nat)
    (hb : m.get_byte c.pc = 0xBD)
    (hbase : m.get_byte ((c.pc + 1) % 0x10000) |||
             m.get_byte (((c.pc + 1) % 0x10000 + 1) % 0x10000) <<< 8 = b)
    (hblt : b < 0x10000) :
    (c.execute_instruction m).toOption.map (fun r => r.1.cycle) =
      some (c.cycle +
        (if (b + c.x) % 0x10000 / 0x100 = b / 0x100 then 4 else 5)) := by
  unfold Cpu.execute_instruction
  dsimp only
  rw [fetch_lda_absx { c with previous_pc := c.pc } m hb]
  dsimp only
  rw [hbase]
  simp only [Cpu.realise_operand, Cpu.update_zero, Cpu.update_negative_from_byte,
    Cpu.instruction_cycles, Except.toOption, Option.map, Option.getD_some,
    update_flag_cycle, update_flag_x, Cpu.page_cross_penalty]
  rw [land_ff00, land_ff00]
  simp only [Option.some.injEq]
  split_ifs <;> omega

theorem claim_C5_witness :
    ((cpuAt 0x200 0xFF 0 1).execute_instruction (memLda 0xFF 0x00)).toOption.map
        (fun r => r.1.cycle) = some 5 ∧
    ((cpuAt 0x200 0xFF 0 1).execute_instruction (memLda 0x10 0x00)).toOption.map
        (fun r => r.1.cycle) = some 4 := by
  constructor
  · rw [claim_C5_absolute_indexed_cycles (cpuAt 0x200 0xFF 0 1) (memLda 0xFF 0x00)
        0xFF rfl rfl (by decide)]
    rfl
  · rw [claim_C5_absolute_indexed_cycles (cpuAt 0x200 0xFF 0 1) (memLda 0x10 0x00)
        0x10 rfl rfl (by decide)]
    rfl

end AsteroidsEmu
